import Mathlib

/-!
# DataSource (app/js/dataSource.js)

A shallow embedding of the `DataSource` Backbone model: URL classification
(`parseUrlForDataSourceInformation`, `parseYouTubeVideoIdFromUrl`), the listing-URL
derivation (`setUrl`), the construction of a model (`initialize`), the predicates `isV3`
and `needsLoading`, and the title lookup (`getTitle`).

JavaScript strings are sequences of UTF-16 code units.  A string is embedded as the list of
its code units, each a natural number; `String.prototype.length` is `List.length`, `+` on
strings is `++`.
-/

namespace DataSource

/-- A JavaScript string: the list of its UTF-16 code units. -/
abbrev JSString := List Nat

/-- The code units of a string literal of the source (all literals of the file are ASCII). -/
def js (s : String) : JSString := s.toList.map Char.toNat

/-! ## Built-ins of `String.prototype` used by the file -/

/-- Worker of `split` for a non-empty separator: scans the string from left to right;
`skip` counts the code units of a separator occurrence that are still to be passed over,
`acc` holds (reversed) the code units of the substring being collected. -/
def splitGo (sep : JSString) : Nat → JSString → JSString → List JSString
  | _, acc, [] => [acc.reverse]
  | skip + 1, acc, _ :: cs => splitGo sep skip acc cs
  | 0, acc, c :: cs =>
    if sep.isPrefixOf (c :: cs) then acc.reverse :: splitGo sep (sep.length - 1) [] cs
    else splitGo sep 0 (c :: acc) cs

/-- `s.split(sep)` for a string separator: the substrings of `s` between the successive
(leftmost, non-overlapping) occurrences of `sep`; with the empty separator, the code units
of `s` one by one. -/
def split (s sep : JSString) : List JSString :=
  if sep = [] then s.map (fun c => [c]) else splitGo sep 0 [] s

/-- Position of the first occurrence of `pat` in `s` at or after offset `i`, as a natural
number. -/
def indexOfFrom (pat : JSString) : JSString → Nat → Option Nat
  | [], i => if pat = [] then some i else none
  | c :: cs, i => if pat.isPrefixOf (c :: cs) then some i else indexOfFrom pat cs (i + 1)

/-- `s.indexOf(pat)`: the position of the first occurrence, `-1` when there is none. -/
def indexOf (s pat : JSString) : Int :=
  match indexOfFrom pat s 0 with
  | some i => (i : Int)
  | none => -1

/-- `s.substring(0, e)` for an end position `e ≥ 0`. -/
def substring0 (s : JSString) (e : Int) : JSString := s.take e.toNat

/-! ## The kinds and the `dataSourceOptions` table -/

/-- Modelled from the spec: the enumeration of the `dataSourceType` module, which is not
among the sources.  The constructors carry the names under which `dataSource.js` reads
them; the spec's `ReferenceKind` lists the same seven pairwise distinct kinds. -/
inductive DataSourceType where
  | None
  | YouTubeVideo
  | YouTubeChannel
  | YouTubePlaylist
  | YouTubeFavorites
  | YouTubeAutoGenerated
  | SharedPlaylist
  deriving DecidableEq

/-- The object returned by `parseUrlForDataSourceInformation`. -/
structure ParsedInformation where
  dataSourceType : DataSourceType
  dataSourceId : JSString
  deriving DecidableEq

/-- One entry of the `dataSourceOptions` table. -/
structure DataSourceOption where
  identifiers : List JSString
  dataSourceType : DataSourceType
  deriving DecidableEq

/-- The `dataSourceOptions` table (lines 78-93), in source order. -/
def dataSourceOptions : List DataSourceOption :=
  [ { identifiers := [js "list=PL", js "p=PL", js "list=RD", js "p=RD"],
      dataSourceType := DataSourceType.YouTubePlaylist },
    { identifiers := [js "list=FL", js "p=FL"],
      dataSourceType := DataSourceType.YouTubeFavorites },
    { identifiers := [js "list=AL", js "p=AL"],
      dataSourceType := DataSourceType.YouTubeAutoGenerated },
    { identifiers := [js "/user/", js "/channel/", js "list=UU", js "p=UU"],
      dataSourceType := DataSourceType.YouTubeChannel },
    { identifiers := [js "streamus:"],
      dataSourceType := DataSourceType.SharedPlaylist } ]

/-! ## `tryGetIdFromUrl` (lines 95-118) -/

/-- Lines 101-106: the second substring of the split, cut at its first `&`. -/
def extractAfterIdentifier (url identifier : JSString) : JSString :=
  let parsedDataSourceId := (split url identifier).getD 1 []
  let ampersandPosition := indexOf parsedDataSourceId (js "&")
  if ampersandPosition ≠ -1 then substring0 parsedDataSourceId ampersandPosition
  else parsedDataSourceId

/-- Lines 108-114: the `AL` and `RD` identifiers stay at the front of the id. -/
def withIdentifierPrefix (identifier parsedDataSourceId : JSString) : JSString :=
  if identifier = js "list=AL" ∨ identifier = js "p=AL" then js "AL" ++ parsedDataSourceId
  else if identifier = js "list=RD" ∨ identifier = js "p=RD" then js "RD" ++ parsedDataSourceId
  else parsedDataSourceId

/-- The local function `tryGetIdFromUrl`. -/
def tryGetIdFromUrl (url identifier : JSString) : JSString :=
  let urlTokens := split url identifier
  if urlTokens.length > 1 then
    withIdentifierPrefix identifier (extractAfterIdentifier url identifier)
  else []

/-! ## `parseYouTubeVideoIdFromUrl` (lines 152-161)

The regular expression is
`/^.*(youtu.be\/|v\/|u\/\w\/|embed\/|watch\?v=|watch\?.*?\&v=)([^#\&\?]*).*/`,
matched by backtracking: the leading `.*` is greedy, the alternatives of group 1 are tried
in order, `.*?` is lazy.  Group 2 and the trailing `.*` match the empty string if nothing
else, so the first way of matching `^.*(...)` is the match that is returned. -/

/-- Line terminators, the code units the atom `.` does not match. -/
def isLineTerminator (c : Nat) : Bool :=
  c == 0x0A || c == 0x0D || c == 0x2028 || c == 0x2029

/-- The class `\w`: `[A-Za-z0-9_]`. -/
def isWordChar (c : Nat) : Bool :=
  (0x41 ≤ c && c ≤ 0x5A) || (0x61 ≤ c && c ≤ 0x7A) || (0x30 ≤ c && c ≤ 0x39) || c == 0x5F

/-- The class `[^#\&\?]`. -/
def isIdChar (c : Nat) : Bool :=
  !(c == 0x23 || c == 0x26 || c == 0x3F)

/-- Matches a literal at the head of `s`; the result is what follows it. -/
def matchLiteral (lit s : JSString) : Option JSString :=
  if lit.isPrefixOf s then some (s.drop lit.length) else none

/-- The alternative `youtu.be\/`; its `.` is the atom, not a literal dot. -/
def matchYoutuBe (s : JSString) : Option JSString :=
  match matchLiteral (js "youtu") s with
  | some (c :: rest) => if isLineTerminator c then none else matchLiteral (js "be/") rest
  | _ => none

/-- The alternative `u\/\w\/`. -/
def matchUserSlot (s : JSString) : Option JSString :=
  match matchLiteral (js "u/") s with
  | some (c :: rest) => if isWordChar c then matchLiteral (js "/") rest else none
  | _ => none

/-- The tail `.*?\&v=` of the last alternative: the lazy star gives up as few code units as
possible before `&v=`. -/
def matchLazyAmpV : JSString → Option JSString
  | [] => none
  | c :: cs =>
    match matchLiteral (js "&v=") (c :: cs) with
    | some rest => some rest
    | none => if isLineTerminator c then none else matchLazyAmpV cs

/-- The alternative `watch\?.*?\&v=`. -/
def matchWatchAmpV (s : JSString) : Option JSString :=
  match matchLiteral (js "watch?") s with
  | some rest => matchLazyAmpV rest
  | none => none

/-- Group 1 at the head of `s`, alternatives in source order. -/
def matchGroup1 (s : JSString) : Option JSString :=
  (matchYoutuBe s).orElse fun _ =>
  (matchLiteral (js "v/") s).orElse fun _ =>
  (matchUserSlot s).orElse fun _ =>
  (matchLiteral (js "embed/") s).orElse fun _ =>
  (matchLiteral (js "watch?v=") s).orElse fun _ =>
  matchWatchAmpV s

/-- `^.*(group 1)`: the greedy star first tries to take one more code unit, and falls back
to matching group 1 at the current position. -/
def matchStarGroup1 : JSString → Option JSString
  | [] => matchGroup1 []
  | c :: cs =>
    if isLineTerminator c then matchGroup1 (c :: cs)
    else (matchStarGroup1 cs).orElse fun _ => matchGroup1 (c :: cs)

/-- `url.match(...)`, reduced to `match[2]`: `none` when the expression does not match. -/
def matchVideoId (url : JSString) : Option JSString :=
  (matchStarGroup1 url).map fun rest => rest.takeWhile isIdChar

/-- The method `parseYouTubeVideoIdFromUrl`; `none` is the source's `null`. -/
def parseYouTubeVideoIdFromUrl (url : JSString) : Option JSString :=
  match matchVideoId url with
  | some capture => if capture.length = 11 then some capture else none
  | none => none

/-! ## `parseUrlForDataSourceInformation` (lines 73-149) -/

/-- The callback of `_.each` (lines 121-133), as a step on the pair of local variables. -/
def eachOption (urlToParse : JSString) (acc : ParsedInformation)
    (dataSourceOption : DataSourceOption) : ParsedInformation :=
  let validIdentifier := dataSourceOption.identifiers.find? fun identifier =>
    decide (tryGetIdFromUrl urlToParse identifier ≠ [])
  match validIdentifier with
  | some identifier =>
    { dataSourceType := dataSourceOption.dataSourceType,
      dataSourceId := tryGetIdFromUrl urlToParse identifier }
  | none => acc

/-- JavaScript truthiness of a value that is `null` or a string. -/
def truthy : Option JSString → Bool
  | some (_ :: _) => true
  | _ => false

/-- The method `parseUrlForDataSourceInformation`. -/
def parseUrlForDataSourceInformation (urlToParse : JSString) : ParsedInformation :=
  let found := dataSourceOptions.foldl (eachOption urlToParse)
    { dataSourceType := DataSourceType.None, dataSourceId := [] }
  if found.dataSourceType = DataSourceType.None then
    let videoId := parseYouTubeVideoIdFromUrl urlToParse
    if truthy videoId then
      { dataSourceType := DataSourceType.YouTubeVideo, dataSourceId := videoId.getD [] }
    else found
  else found

/-! ## The model: attributes, `setUrl` (lines 32-54) and `initialize` (lines 18-30) -/

/-- The state of one `DataSource`: its four attributes, and whether `setUrl` has been bound
to the `change:type` event (line 29), the only handler the file registers. -/
structure Model where
  type : DataSourceType
  sourceId : JSString
  url : JSString
  title : JSString
  changeTypeBound : Bool
  deriving DecidableEq

/-- The `defaults` of the model (lines 10-16); no handler is bound yet. -/
def defaults : Model :=
  { type := DataSourceType.None, sourceId := [], url := [], title := [],
    changeTypeBound := false }

/-- The value `setUrl` computes in its local `url` (lines 35-50). -/
def craftUrl (type : DataSourceType) (sourceId : JSString) : JSString :=
  let url := js "https://gdata.youtube.com/feeds/api/"
  match type with
  | DataSourceType.YouTubeChannel => url ++ (js "users/" ++ sourceId ++ js "/uploads")
  | DataSourceType.YouTubeFavorites => url ++ (js "users/" ++ sourceId ++ js "/favorites")
  | DataSourceType.YouTubePlaylist => url ++ (js "playlists/" ++ sourceId)
  | _ => []

/-- The method `setUrl`: `this.set('url', url)`; no handler listens to `change:url`. -/
def setUrl (self : Model) : Model :=
  { self with url := craftUrl self.type self.sourceId }

/-- `this.set('type', value)` of Backbone: the attribute is written and, when the value has
changed, the `change:type` event runs its handler, which is `setUrl` once bound. -/
def setType (self : Model) (value : DataSourceType) : Model :=
  if value = self.type then self
  else
    let self := { self with type := value }
    if self.changeTypeBound then setUrl self else self

/-- `this.set('sourceId', value)`: no handler listens to `change:sourceId`. -/
def setSourceId (self : Model) (value : JSString) : Model :=
  { self with sourceId := value }

/-- The argument of the constructor, which Backbone also hands to `initialize`: the
attributes the caller supplies, and `urlToParse`. -/
structure Options where
  type : Option DataSourceType := none
  sourceId : Option JSString := none
  url : Option JSString := none
  title : Option JSString := none
  urlToParse : Option JSString := none
  deriving DecidableEq

/-- The method of lines 18-30, run on the model `self` with the constructor's argument. -/
def initializeModel (self : Model) (options : Option Options) : Model :=
  let urlToParse := options.bind fun o => o.urlToParse
  let self :=
    if truthy urlToParse then
      let parsedDataSourceInformation := parseUrlForDataSourceInformation (urlToParse.getD [])
      setSourceId (setType self parsedDataSourceInformation.dataSourceType)
        parsedDataSourceInformation.dataSourceId
    else self
  let self := setUrl self
  { self with changeTypeBound := true }

/-- `new DataSource(options)`: Backbone fills the attributes from the argument and the
`defaults`, then calls the method of lines 18-30. -/
def create (options : Option Options) : Model :=
  let o := options.getD {}
  initializeModel
    { type := o.type.getD defaults.type, sourceId := o.sourceId.getD defaults.sourceId,
      url := o.url.getD defaults.url, title := o.title.getD defaults.title,
      changeTypeBound := false }
    options

/-- An update of one of the two attributes the listing URL is crafted from. -/
inductive Update where
  | type (value : DataSourceType)
  | sourceId (value : JSString)
  deriving DecidableEq

/-- One update applied to a model. -/
def applyUpdate (self : Model) : Update → Model
  | Update.type value => setType self value
  | Update.sourceId value => setSourceId self value

/-- A sequence of updates applied from left to right. -/
def applyUpdates (self : Model) (updates : List Update) : Model :=
  updates.foldl applyUpdate self

/-! ## `isV3` (lines 57-62) and `needsLoading` (lines 65-71) -/

/-- The method `isV3`. -/
def isV3 (self : Model) : Bool :=
  let type := self.type
  decide (type = DataSourceType.YouTubeAutoGenerated)

/-- The method `needsLoading`. -/
def needsLoading (self : Model) : Bool :=
  let type := self.type
  decide (type = DataSourceType.YouTubeChannel) ||
    decide (type = DataSourceType.YouTubePlaylist) ||
    decide (type = DataSourceType.YouTubeFavorites) ||
    decide (type = DataSourceType.YouTubeAutoGenerated)

/-! ## `getTitle` (lines 164-226)

A call of `getTitle` is followed up to the completion of the lookup it may start.  What the
call does to the outside is recorded, in order, in a trace. -/

/-- A request to a remote title service, with the id it is keyed by. -/
inductive RemoteCall where
  | getPlaylistTitle (playlistId : JSString)
  | getChannelName (channelId : JSString)
  | getAutoGeneratedPlaylistTitle (id : JSString)
  deriving DecidableEq

/-- What a call of `getTitle` does to the outside: a request to a remote service, a call of
`options.success`, a call of `options.error`, a `console.error` about a type. -/
inductive Effect where
  | remote (call : RemoteCall)
  | success (title : JSString)
  | error
  | consoleError (type : DataSourceType)
  deriving DecidableEq

/-- The model and the trace of a call of `getTitle` in progress. -/
structure Execution where
  self : Model
  trace : List Effect
  deriving DecidableEq

/-- Appends one effect to the trace. -/
def emit (effect : Effect) (e : Execution) : Execution :=
  { e with trace := e.trace ++ [effect] }

/-- `options.success(title)`, the caller's callback (a no-op when the caller gave none). -/
def optionsSuccess (title : JSString) (e : Execution) : Execution :=
  emit (Effect.success title) e

/-- `options.error()`, the caller's callback (a no-op when the caller gave none). -/
def optionsError (e : Execution) : Execution :=
  emit Effect.error e

/-- `self.set('title', value)`: no handler listens to `change:title`. -/
def setTitle (self : Model) (value : JSString) : Model :=
  { self with title := value }

/-- The `success` function of lines 185-188, 198-201 and 213-216: the title is stored, then
handed to `options.success`. -/
def onRemoteSuccess (title : JSString) (e : Execution) : Execution :=
  optionsSuccess title { e with self := setTitle e.self title }

/-- Modelled from the spec: `YouTubeV2API.getPlaylistTitle` and `YouTubeV2API.getChannelName`
of the module `youTubeV2API`, which is not among the sources.  The request is issued and the
service calls exactly one of the two callbacks it was given: `success` with the title when
the lookup succeeds (`outcome = some title`), `error` when it fails (`outcome = none`). -/
def YouTubeV2API (call : RemoteCall) (outcome : Option JSString)
    (success : JSString → Execution → Execution) (error : Execution → Execution)
    (e : Execution) : Execution :=
  match outcome with
  | some title => success title (emit (Effect.remote call) e)
  | none => error (emit (Effect.remote call) e)

/-- Modelled from the spec: `YouTubeV3API.getAutoGeneratedPlaylistTitle(id, success)` of the
module `youTubeV3API`, which is not among the sources.  Its contract has no error callback:
`success` is called with the title when the lookup succeeds, nothing is called when it
fails. -/
def YouTubeV3API (call : RemoteCall) (outcome : Option JSString)
    (success : JSString → Execution → Execution) (e : Execution) : Execution :=
  match outcome with
  | some title => success title (emit (Effect.remote call) e)
  | none => emit (Effect.remote call) e

/-- The method `getTitle`.  `notifyOnError` is the caller's option, `none` when the caller
left it out (line 170 then makes it `true`); `remote` gives the outcome of each lookup. -/
def getTitle (self : Model) (notifyOnError : Option Bool)
    (remote : RemoteCall → Option JSString) : Execution :=
  let notifyOnError := notifyOnError.getD true
  let e : Execution := { self := self, trace := [] }
  if self.title ≠ [] then optionsSuccess self.title e
  else
    match self.type with
    | DataSourceType.YouTubePlaylist =>
      YouTubeV2API (RemoteCall.getPlaylistTitle self.sourceId)
        (remote (RemoteCall.getPlaylistTitle self.sourceId)) onRemoteSuccess optionsError e
    | DataSourceType.YouTubeFavorites =>
      YouTubeV2API (RemoteCall.getChannelName self.sourceId)
        (remote (RemoteCall.getChannelName self.sourceId)) onRemoteSuccess optionsError e
    | DataSourceType.YouTubeChannel =>
      YouTubeV2API (RemoteCall.getChannelName self.sourceId)
        (remote (RemoteCall.getChannelName self.sourceId)) onRemoteSuccess optionsError e
    | DataSourceType.YouTubeAutoGenerated =>
      YouTubeV3API (RemoteCall.getAutoGeneratedPlaylistTitle self.sourceId)
        (remote (RemoteCall.getAutoGeneratedPlaylistTitle self.sourceId)) onRemoteSuccess e
    | _ =>
      optionsError (if notifyOnError then emit (Effect.consoleError self.type) e else e)

/-- One call of `getTitle` as its caller writes it: the option and the outcomes the remote
services have for it. -/
structure TitleRequest where
  notifyOnError : Option Bool
  remote : RemoteCall → Option JSString

/-- Calls of `getTitle` one after the other, each run to completion: the model at the
end. -/
def getTitleAll (self : Model) : List TitleRequest → Model
  | [] => self
  | r :: rs => getTitleAll (getTitle self r.notifyOnError r.remote).self rs

/-- The number of calls, in a sequence run as by `getTitleAll`, that leave the model with a
title other than the one they found. -/
def titleChanges (self : Model) : List TitleRequest → Nat
  | [] => 0
  | r :: rs =>
    (if (getTitle self r.notifyOnError r.remote).self.title ≠ self.title then 1 else 0) +
      titleChanges (getTitle self r.notifyOnError r.remote).self rs

/-- The number of calls of `options.success` in a trace. -/
def successCount (trace : List Effect) : Nat :=
  trace.countP fun effect => match effect with
    | Effect.success _ => true
    | _ => false

/-- The number of calls of `options.error` in a trace. -/
def errorCount (trace : List Effect) : Nat :=
  trace.countP fun effect => match effect with
    | Effect.error => true
    | _ => false

/-- The requests to remote services in a trace. -/
def remoteCalls (trace : List Effect) : List RemoteCall :=
  trace.filterMap fun effect => match effect with
    | Effect.remote call => some call
    | _ => none

/-! ## Vocabulary of the statements -/

/-- The string `s` is `pre`, then `sep`, then `rest`, and no occurrence of `sep` in `s`
starts before this one. -/
def FirstOccurrence (sep pre rest s : JSString) : Prop :=
  s = pre ++ sep ++ rest ∧ ∀ p r, s = p ++ sep ++ r → pre.length ≤ p.length

/-- The code unit of `&`. -/
def ampersand : Nat := 38

/-- The string `s` cut before its first `&` (all of `s` when it has none). -/
def upToAmpersand (s : JSString) : JSString := s.takeWhile fun c => decide (c ≠ ampersand)

/-- An identifier matches a URL when `tryGetIdFromUrl` returns a non-empty string for it
(the test of line 125). -/
def identifierMatches (url identifier : JSString) : Prop :=
  tryGetIdFromUrl url identifier ≠ []

instance (url identifier : JSString) : Decidable (identifierMatches url identifier) :=
  inferInstanceAs (Decidable (tryGetIdFromUrl url identifier ≠ []))

/-! # Theorems -/

/-! ## Occurrences of a separator and `split` -/

theorem isPrefixOf_eq_true_iff (sep s : JSString) :
    sep.isPrefixOf s = true ↔ ∃ r, s = sep ++ r := by
  rw [List.isPrefixOf_iff_prefix]
  constructor
  · rintro ⟨r, hr⟩; exact ⟨r, hr.symm⟩
  · rintro ⟨r, hr⟩; exact ⟨r, hr.symm⟩

theorem splitGo_zero_cons (sep acc : JSString) (c : Nat) (cs : JSString) :
    splitGo sep 0 acc (c :: cs) =
      if sep.isPrefixOf (c :: cs) then acc.reverse :: splitGo sep (sep.length - 1) [] cs
      else splitGo sep 0 (c :: acc) cs := rfl

theorem splitGo_succ_cons (sep acc : JSString) (k c : Nat) (cs : JSString) :
    splitGo sep (k + 1) acc (c :: cs) = splitGo sep k acc cs := rfl

theorem splitGo_skip (sep : JSString) (xs acc rest : JSString) :
    splitGo sep xs.length acc (xs ++ rest) = splitGo sep 0 acc rest := by
  induction xs with
  | nil => simp
  | cons x xs ih => simpa [splitGo_succ_cons] using ih

/-- Scanning over a stretch in which no occurrence of the separator starts only collects
its code units. -/
theorem splitGo_noStart (sep : JSString) (pre : JSString) :
    ∀ (acc s : JSString),
      (∀ a b, pre = a ++ b → b ≠ [] → sep.isPrefixOf (b ++ s) = false) →
      splitGo sep 0 acc (pre ++ s) = splitGo sep 0 (pre.reverse ++ acc) s := by
  induction pre with
  | nil => intro acc s _; simp
  | cons x pre ih =>
    intro acc s h
    have h0 : sep.isPrefixOf (x :: (pre ++ s)) = false := by
      simpa using h [] (x :: pre) rfl (by simp)
    have h1 : ∀ a b, pre = a ++ b → b ≠ [] → sep.isPrefixOf (b ++ s) = false := by
      intro a b hab hb
      exact h (x :: a) b (by simp [hab]) hb
    rw [List.cons_append, splitGo_zero_cons, h0, if_neg (by simp), ih (x :: acc) s h1]
    simp

theorem splitGo_firstOccurrence (sep pre rest acc : JSString) (hsep : sep ≠ [])
    (hfirst : ∀ p r, pre ++ sep ++ rest = p ++ sep ++ r → pre.length ≤ p.length) :
    splitGo sep 0 acc (pre ++ sep ++ rest) =
      (acc.reverse ++ pre) :: splitGo sep 0 [] rest := by
  have hno : ∀ a b, pre = a ++ b → b ≠ [] → sep.isPrefixOf (b ++ (sep ++ rest)) = false := by
    intro a b hab hb
    by_contra hc
    have hc1 : sep.isPrefixOf (b ++ (sep ++ rest)) = true := by simpa using hc
    obtain ⟨r, hr⟩ := (isPrefixOf_eq_true_iff _ _).1 hc1
    have := hfirst a r (by rw [hab]; simp [hr])
    rw [hab] at this
    have hb1 : 0 < b.length := List.length_pos.2 hb
    rw [List.length_append] at this
    omega
  rw [List.append_assoc, splitGo_noStart sep pre acc (sep ++ rest) hno]
  obtain ⟨c, t, rfl⟩ := List.exists_cons_of_ne_nil hsep
  have hp : (c :: t).isPrefixOf (c :: t ++ rest) = true :=
    (isPrefixOf_eq_true_iff _ _).2 ⟨rest, rfl⟩
  rw [List.cons_append, splitGo_zero_cons]
  rw [List.cons_append] at hp
  rw [if_pos hp]
  simp only [List.length_cons, Nat.add_sub_cancel, List.reverse_append, List.reverse_reverse]
  rw [splitGo_skip]

theorem splitGo_noOccurrence (sep s acc : JSString)
    (hno : ∀ p r, s ≠ p ++ sep ++ r) :
    splitGo sep 0 acc s = [acc.reverse ++ s] := by
  have h : ∀ a b, s = a ++ b → b ≠ [] → sep.isPrefixOf (b ++ []) = false := by
    intro a b hab _
    by_contra hc
    have hc1 : sep.isPrefixOf (b ++ []) = true := by simpa using hc
    obtain ⟨r, hr⟩ := (isPrefixOf_eq_true_iff _ _).1 hc1
    exact hno a r (by rw [hab]; simp at hr; simp [hr])
  have := splitGo_noStart sep s acc [] h
  rw [List.append_nil] at this
  rw [this]
  simp [splitGo]

theorem js_amp : js "&" = [38] := by decide

theorem indexOfFrom_amp (s : JSString) (i : Nat) :
    indexOfFrom [38] s i =
      if 38 ∈ s then some (i + (s.takeWhile (fun c => decide (c ≠ 38))).length) else none := by
  induction s generalizing i with
  | nil => simp [indexOfFrom]
  | cons c cs ih =>
    by_cases hc : c = 38
    · subst hc
      simp [indexOfFrom, List.isPrefixOf]
    · have hc' : ¬ (38 = c) := fun h => hc h.symm
      simp only [indexOfFrom, List.isPrefixOf, ih, List.mem_cons, hc', false_or]
      by_cases hm : 38 ∈ cs
      · simp [hm, hc, hc', List.takeWhile_cons]
        omega
      · simp [hm, hc, hc']

/-- Lines 103-106: cutting at the position `indexOf('&')` reports is `takeWhile`. -/
theorem cut_at_ampersand (s : JSString) :
    (if indexOf s (js "&") ≠ -1 then substring0 s (indexOf s (js "&")) else s) =
      s.takeWhile (fun c => decide (c ≠ 38)) := by
  rw [js_amp]
  unfold indexOf substring0
  rw [indexOfFrom_amp]
  by_cases hm : 38 ∈ s
  · simp only [hm, if_true]
    have hne : ((0 + (s.takeWhile (fun c => decide (c ≠ 38))).length : Nat) : Int) ≠ -1 := by
      omega
    rw [if_pos hne]
    simp only [Int.toNat_ofNat, Nat.zero_add]
    exact (List.prefix_iff_eq_take.1 (List.takeWhile_prefix _)).symm
  · simp only [hm, if_false]
    simp only [ne_eq, not_true_eq_false, if_false]
    symm
    rw [List.takeWhile_eq_self_iff]
    intro x hx
    simp only [decide_eq_true_eq]
    rintro rfl
    exact hm hx

theorem extractAfterIdentifier_eq (url identifier : JSString) :
    extractAfterIdentifier url identifier =
      ((split url identifier).getD 1 []).takeWhile (fun c => decide (c ≠ 38)) := by
  unfold extractAfterIdentifier
  exact cut_at_ampersand _

theorem split_of_ne_nil (s sep : JSString) (hsep : sep ≠ []) :
    split s sep = splitGo sep 0 [] s := by
  unfold split
  rw [if_neg hsep]

theorem splitGo_ne_nil (sep s : JSString) : ∀ (k : Nat) (acc : JSString),
    splitGo sep k acc s ≠ [] := by
  induction s with
  | nil => intro k acc; simp [splitGo]
  | cons c cs ih =>
    intro k acc
    cases k with
    | zero =>
      rw [splitGo_zero_cons]
      split
      · simp
      · exact ih 0 _
    | succ k => rw [splitGo_succ_cons]; exact ih k acc

theorem split_ne_nil (s sep : JSString) (hsep : sep ≠ []) : split s sep ≠ [] := by
  rw [split_of_ne_nil _ _ hsep]
  exact splitGo_ne_nil sep s 0 []

theorem split_firstOccurrence (sep pre rest s : JSString) (hsep : sep ≠ [])
    (h : FirstOccurrence sep pre rest s) : split s sep = pre :: split rest sep := by
  obtain ⟨hs, hmin⟩ := h
  subst hs
  rw [split_of_ne_nil _ _ hsep, split_of_ne_nil _ _ hsep,
    splitGo_firstOccurrence sep pre rest [] hsep hmin]
  simp

theorem split_noOccurrence (sep s : JSString) (hsep : sep ≠ []) (h : ¬ sep <:+: s) :
    split s sep = [s] := by
  rw [split_of_ne_nil _ _ hsep, splitGo_noOccurrence sep s []]
  · simp
  · intro p r hpr
    exact h ⟨p, r, hpr.symm⟩

theorem exists_firstOccurrence (sep s : JSString) (h : sep <:+: s) :
    ∃ pre rest, FirstOccurrence sep pre rest s := by
  classical
  have hex : ∃ n, ∃ p r, s = p ++ sep ++ r ∧ p.length = n := by
    obtain ⟨p, r, hpr⟩ := h
    exact ⟨p.length, p, r, hpr.symm, rfl⟩
  obtain ⟨p, r, hpr, hlen⟩ := Nat.find_spec hex
  refine ⟨p, r, hpr, ?_⟩
  intro p' r' h'
  rw [hlen]
  exact Nat.find_min' hex ⟨p', r', h', rfl⟩

/-- The position `indexOfFrom` reports is that of the first occurrence. -/
theorem indexOfFrom_eq_some (sep : JSString) (hsep : sep ≠ []) (s : JSString) :
    ∀ (i n : Nat), indexOfFrom sep s i = some n →
      ∃ pre rest, n = i + pre.length ∧ FirstOccurrence sep pre rest s := by
  induction s with
  | nil => intro i n h; simp [indexOfFrom, hsep] at h
  | cons c cs ih =>
    intro i n h
    unfold indexOfFrom at h
    by_cases hp : sep.isPrefixOf (c :: cs) = true
    · rw [if_pos hp] at h
      obtain ⟨r, hr⟩ := (isPrefixOf_eq_true_iff _ _).1 hp
      refine ⟨[], r, by simpa using (Option.some.inj h).symm, by simpa using hr, ?_⟩
      intro p r' _
      simp
    · rw [if_neg hp] at h
      obtain ⟨pre, rest, hn, hs, hmin⟩ := ih (i + 1) n h
      refine ⟨c :: pre, rest, by simp [hn]; omega, by simp [hs], ?_⟩
      intro p r' h'
      cases p with
      | nil =>
        exact absurd ((isPrefixOf_eq_true_iff _ _).2 ⟨r', by simpa using h'⟩) hp
      | cons c' p' =>
        simp only [List.cons_append, List.cons.injEq] at h'
        have := hmin p' r' (by simpa using h'.2)
        simpa using this

/-- A decidable test for `FirstOccurrence` on concrete strings. -/
theorem firstOccurrence_of_indexOfFrom (sep pre rest s : JSString) (hsep : sep ≠ [])
    (hs : s = pre ++ sep ++ rest) (hi : indexOfFrom sep s 0 = some pre.length) :
    FirstOccurrence sep pre rest s := by
  obtain ⟨pre', rest', hn, _, hmin⟩ := indexOfFrom_eq_some sep hsep s 0 pre.length hi
  refine ⟨hs, ?_⟩
  intro p r h
  have := hmin p r h
  omega

theorem tryGetIdFromUrl_of_noOccurrence (url identifier : JSString) (hne : identifier ≠ [])
    (h : ¬ identifier <:+: url) : tryGetIdFromUrl url identifier = [] := by
  unfold tryGetIdFromUrl
  simp [split_noOccurrence identifier url hne h]

theorem split_length_of_occurrence (url identifier : JSString) (hne : identifier ≠ [])
    (h : identifier <:+: url) : 1 < (split url identifier).length := by
  obtain ⟨pre, rest, hf⟩ := exists_firstOccurrence identifier url h
  rw [split_firstOccurrence identifier pre rest url hne hf]
  have := List.length_pos.2 (split_ne_nil rest identifier hne)
  simp only [List.length_cons]
  omega

/-! ## The scan of `dataSourceOptions` -/

theorem eachOption_of_noMatch (url : JSString) (acc : ParsedInformation)
    (o : DataSourceOption) (h : ∀ t ∈ o.identifiers, ¬ identifierMatches url t) :
    eachOption url acc o = acc := by
  unfold eachOption
  have : o.identifiers.find? (fun identifier =>
      decide (tryGetIdFromUrl url identifier ≠ [])) = none := by
    rw [List.find?_eq_none]
    intro t ht
    simpa [identifierMatches] using h t ht
  simp only [this]

theorem eachOption_of_match (url : JSString) (acc : ParsedInformation)
    (o : DataSourceOption) (pre post : List JSString) (tok : JSString)
    (hids : o.identifiers = pre ++ tok :: post)
    (hpre : ∀ t ∈ pre, ¬ identifierMatches url t) (htok : identifierMatches url tok) :
    eachOption url acc o =
      { dataSourceType := o.dataSourceType, dataSourceId := tryGetIdFromUrl url tok } := by
  unfold eachOption
  have : o.identifiers.find? (fun identifier =>
      decide (tryGetIdFromUrl url identifier ≠ [])) = some tok := by
    rw [hids, List.find?_append]
    have hn : pre.find? (fun identifier =>
        decide (tryGetIdFromUrl url identifier ≠ [])) = none := by
      rw [List.find?_eq_none]
      intro t ht
      simpa [identifierMatches] using hpre t ht
    rw [hn]
    have ht : decide (tryGetIdFromUrl url tok ≠ []) = true := by
      simpa [identifierMatches] using htok
    rw [List.find?_cons, ht]
    rfl
  simp only [this]

theorem foldl_eachOption_of_noMatch (url : JSString) (os : List DataSourceOption) :
    ∀ (acc : ParsedInformation),
      (∀ o ∈ os, ∀ t ∈ o.identifiers, ¬ identifierMatches url t) →
      os.foldl (eachOption url) acc = acc := by
  induction os with
  | nil => intro acc _; rfl
  | cons o os ih =>
    intro acc h
    rw [List.foldl_cons, eachOption_of_noMatch url acc o (h o (List.mem_cons_self _ _))]
    exact ih acc fun o' ho' => h o' (List.mem_cons_of_mem _ ho')

theorem dataSourceType_ne_None_of_mem (o : DataSourceOption) (h : o ∈ dataSourceOptions) :
    o.dataSourceType ≠ DataSourceType.None := by
  simp only [dataSourceOptions, List.mem_cons, List.mem_singleton, List.not_mem_nil,
    or_false] at h
  rcases h with h | h | h | h | h <;> subst h <;> simp

/-- The last group with a matching identifier decides the kind, its first matching
identifier the id. -/
theorem parse_of_lastGroup (url : JSString) (before after : List DataSourceOption)
    (g : DataSourceOption) (pre post : List JSString) (tok : JSString)
    (hopts : dataSourceOptions = before ++ g :: after)
    (hids : g.identifiers = pre ++ tok :: post)
    (htok : identifierMatches url tok)
    (hpre : ∀ t ∈ pre, ¬ identifierMatches url t)
    (hafter : ∀ o ∈ after, ∀ t ∈ o.identifiers, ¬ identifierMatches url t) :
    parseUrlForDataSourceInformation url =
      { dataSourceType := g.dataSourceType, dataSourceId := tryGetIdFromUrl url tok } := by
  have hg : g.dataSourceType ≠ DataSourceType.None :=
    dataSourceType_ne_None_of_mem g (by rw [hopts]; simp)
  unfold parseUrlForDataSourceInformation
  rw [hopts, List.foldl_append, List.foldl_cons,
    eachOption_of_match url _ g pre post tok hids hpre htok,
    foldl_eachOption_of_noMatch url after _ hafter]
  simp [hg]

/-- When no group has a matching identifier, the video id decides. -/
theorem parse_of_noGroup (url : JSString)
    (h : ∀ o ∈ dataSourceOptions, ∀ t ∈ o.identifiers, ¬ identifierMatches url t) :
    parseUrlForDataSourceInformation url =
      if truthy (parseYouTubeVideoIdFromUrl url) then
        { dataSourceType := DataSourceType.YouTubeVideo,
          dataSourceId := (parseYouTubeVideoIdFromUrl url).getD [] }
      else { dataSourceType := DataSourceType.None, dataSourceId := [] } := by
  unfold parseUrlForDataSourceInformation
  rw [foldl_eachOption_of_noMatch url dataSourceOptions _ h]
  simp

theorem exists_first_of_exists {α : Type} (P : α → Prop) (l : List α)
    (h : ∃ x ∈ l, P x) :
    ∃ pre x post, l = pre ++ x :: post ∧ P x ∧ ∀ y ∈ pre, ¬ P y := by
  classical
  induction l with
  | nil => simp at h
  | cons a l ih =>
    by_cases ha : P a
    · exact ⟨[], a, l, rfl, ha, by simp⟩
    · obtain ⟨x, hx, hPx⟩ := h
      have hx' : x ∈ l := by
        rcases List.mem_cons.1 hx with rfl | hx'
        · exact absurd hPx ha
        · exact hx'
      obtain ⟨pre, y, post, hl, hPy, hpre⟩ := ih ⟨x, hx', hPx⟩
      refine ⟨a :: pre, y, post, by simp [hl], hPy, ?_⟩
      intro z hz
      rcases List.mem_cons.1 hz with rfl | hz'
      · exact ha
      · exact hpre z hz'

theorem exists_last_of_exists {α : Type} (P : α → Prop) (l : List α)
    (h : ∃ x ∈ l, P x) :
    ∃ before x after, l = before ++ x :: after ∧ P x ∧ ∀ y ∈ after, ¬ P y := by
  obtain ⟨pre, x, post, hl, hPx, hpre⟩ :=
    exists_first_of_exists P l.reverse (by simpa using h)
  refine ⟨post.reverse, x, pre.reverse, ?_, hPx, by simpa using hpre⟩
  have := congrArg List.reverse hl
  simpa using this

/-! ## What `tryGetIdFromUrl` extracts -/

theorem upToAmpersand_append_of_mem (a b : JSString) (h : ampersand ∈ a) :
    upToAmpersand (a ++ b) = upToAmpersand a := by
  induction a with
  | nil => simp at h
  | cons x a ih =>
    unfold upToAmpersand at ih ⊢
    by_cases hx : x = ampersand
    · simp [hx]
    · have hmem : ampersand ∈ a := by
        rcases List.mem_cons.1 h with h' | h'
        · exact absurd h'.symm hx
        · exact h'
      have hd : decide (x ≠ ampersand) = true := by simpa using hx
      rw [List.cons_append, List.takeWhile_cons, List.takeWhile_cons, hd, ih hmem]

theorem upToAmpersand_append_of_not_mem (a b : JSString) (h : ampersand ∉ a) :
    upToAmpersand (a ++ b) = a ++ upToAmpersand b := by
  unfold upToAmpersand
  apply List.takeWhile_append_of_pos
  intro x hx
  simp only [decide_eq_true_eq]
  rintro rfl
  exact h hx

theorem extractAfterIdentifier_eq_upToAmpersand (url identifier : JSString) :
    extractAfterIdentifier url identifier =
      upToAmpersand ((split url identifier).getD 1 []) :=
  extractAfterIdentifier_eq url identifier

/-- After the first occurrence of the identifier, the extraction stops at the next `&` or
at the next occurrence of the identifier. -/
theorem extract_of_firstOccurrence (url identifier pre rest : JSString)
    (hne : identifier ≠ []) (h : FirstOccurrence identifier pre rest url) :
    (¬ identifier <:+: rest → extractAfterIdentifier url identifier = upToAmpersand rest) ∧
    (∀ mid r, FirstOccurrence identifier mid r rest →
      extractAfterIdentifier url identifier = upToAmpersand mid) := by
  rw [extractAfterIdentifier_eq_upToAmpersand, split_firstOccurrence identifier pre rest url hne h]
  constructor
  · intro hno
    rw [split_noOccurrence identifier rest hne hno]
    rfl
  · intro mid r hmid
    rw [split_firstOccurrence identifier mid r rest hne hmid]
    rfl

/-- When the identifier has no `&` and does not occur again before the next `&`, the
extraction is the rest of the URL up to that `&`. -/
theorem extract_of_firstOccurrence_once (url identifier pre rest : JSString)
    (hne : identifier ≠ []) (hamp : ampersand ∉ identifier)
    (h : FirstOccurrence identifier pre rest url)
    (hagain : ¬ identifier <:+: upToAmpersand rest) :
    extractAfterIdentifier url identifier = upToAmpersand rest := by
  obtain ⟨hno, hsome⟩ := extract_of_firstOccurrence url identifier pre rest hne h
  by_cases hin : identifier <:+: rest
  · obtain ⟨mid, r, hmid⟩ := exists_firstOccurrence identifier rest hin
    rw [hsome mid r hmid]
    obtain ⟨hrest, _⟩ := hmid
    by_cases hm : ampersand ∈ mid
    · rw [hrest, List.append_assoc, upToAmpersand_append_of_mem mid _ hm]
    · exfalso
      apply hagain
      rw [hrest, List.append_assoc, upToAmpersand_append_of_not_mem mid _ hm,
        upToAmpersand_append_of_not_mem identifier _ hamp]
      exact ⟨mid, upToAmpersand r, by simp⟩
  · exact hno hin

theorem tryGetIdFromUrl_of_firstOccurrence (url identifier pre rest : JSString)
    (hne : identifier ≠ []) (h : FirstOccurrence identifier pre rest url) :
    tryGetIdFromUrl url identifier =
      withIdentifierPrefix identifier (extractAfterIdentifier url identifier) := by
  unfold tryGetIdFromUrl
  have : 1 < (split url identifier).length :=
    split_length_of_occurrence url identifier hne ⟨pre, rest, h.1.symm⟩
  simp [this]

/-! ## The claims -/

/-- C1. When at least one group of `dataSourceOptions` has a matching identifier, the
classifier returns the kind of the last such group (in the order Playlist, Favorites,
AutoGenerated, Channel, SharedPlaylist) and the id `tryGetIdFromUrl` extracts with the first
matching identifier of that group; an identifier matches when `tryGetIdFromUrl` returns a
non-empty string for it.  The first part states the result for the last matching group and
its first matching identifier, the second part that they exist. -/
theorem C1_last_group_first_identifier (url : JSString) :
    (∀ (before after : List DataSourceOption) (g : DataSourceOption)
        (pre post : List JSString) (tok : JSString),
        dataSourceOptions = before ++ g :: after →
        g.identifiers = pre ++ tok :: post →
        identifierMatches url tok →
        (∀ t ∈ pre, ¬ identifierMatches url t) →
        (∀ o ∈ after, ∀ t ∈ o.identifiers, ¬ identifierMatches url t) →
        parseUrlForDataSourceInformation url =
          { dataSourceType := g.dataSourceType,
            dataSourceId := tryGetIdFromUrl url tok }) ∧
    ((∃ o ∈ dataSourceOptions, ∃ t ∈ o.identifiers, identifierMatches url t) →
      ∃ (before after : List DataSourceOption) (g : DataSourceOption)
        (pre post : List JSString) (tok : JSString),
        dataSourceOptions = before ++ g :: after ∧
        g.identifiers = pre ++ tok :: post ∧
        identifierMatches url tok ∧
        (∀ t ∈ pre, ¬ identifierMatches url t) ∧
        (∀ o ∈ after, ∀ t ∈ o.identifiers, ¬ identifierMatches url t)) := by
  refine ⟨fun before after g pre post tok h1 h2 h3 h4 h5 =>
    parse_of_lastGroup url before after g pre post tok h1 h2 h3 h4 h5, ?_⟩
  intro h
  obtain ⟨before, g, after, hopts, hg, hafter⟩ :=
    exists_last_of_exists (fun o : DataSourceOption =>
      ∃ t ∈ o.identifiers, identifierMatches url t) dataSourceOptions h
  obtain ⟨pre, tok, post, hids, htok, hpre⟩ :=
    exists_first_of_exists (fun t => identifierMatches url t) g.identifiers hg
  refine ⟨before, after, g, pre, post, tok, hopts, hids, htok, hpre, ?_⟩
  intro o ho t ht hm
  exact hafter o ho ⟨t, ht, hm⟩

/-- C1 at `https://www.youtube.com/user/bob?list=PLabc`: the Playlist group and the Channel
group both match, the Channel group is the later one and `/user/` its first identifier. -/
theorem C1_last_group_first_identifier_witness :
    parseUrlForDataSourceInformation (js "https://www.youtube.com/user/bob?list=PLabc") =
      { dataSourceType := DataSourceType.YouTubeChannel,
        dataSourceId := js "bob?list=PLabc" } :=
  ((C1_last_group_first_identifier (js "https://www.youtube.com/user/bob?list=PLabc")).1
    (dataSourceOptions.take 3) (dataSourceOptions.drop 4)
    { identifiers := [js "/user/", js "/channel/", js "list=UU", js "p=UU"],
      dataSourceType := DataSourceType.YouTubeChannel }
    [] [js "/channel/", js "list=UU", js "p=UU"] (js "/user/")
    (by decide) (by decide) (by decide) (by decide) (by decide)).trans (by decide)

/-- C2 as stated fails at `https://www.youtube.com/watch?v=dQw4w9WgXcQ&list=PLabc`: the
video pattern matches with the 11-character capture `dQw4w9WgXcQ`, yet the Playlist group
matches too and the classifier returns Playlist, `abc`. -/
theorem C2_counterexample :
    matchVideoId (js "https://www.youtube.com/watch?v=dQw4w9WgXcQ&list=PLabc") =
      some (js "dQw4w9WgXcQ") ∧
    (js "dQw4w9WgXcQ").length = 11 ∧
    parseUrlForDataSourceInformation
        (js "https://www.youtube.com/watch?v=dQw4w9WgXcQ&list=PLabc") =
      { dataSourceType := DataSourceType.YouTubePlaylist, dataSourceId := js "abc" } ∧
    parseUrlForDataSourceInformation
        (js "https://www.youtube.com/watch?v=dQw4w9WgXcQ&list=PLabc") ≠
      { dataSourceType := DataSourceType.YouTubeVideo, dataSourceId := js "dQw4w9WgXcQ" } := by
  decide

/-- C2, amended.  For every URL in which no group of `dataSourceOptions` has a matching
identifier: when the video pattern matches with a capture of exactly 11 code units, the
classifier returns Video with the capture as id; when the capture has any other length, it
returns None with the empty id. -/
theorem C2_video_when_no_group_matches (url capture : JSString)
    (hnone : ∀ o ∈ dataSourceOptions, ∀ t ∈ o.identifiers, ¬ identifierMatches url t)
    (hcapture : matchVideoId url = some capture) :
    (capture.length = 11 →
      parseUrlForDataSourceInformation url =
        { dataSourceType := DataSourceType.YouTubeVideo, dataSourceId := capture }) ∧
    (capture.length ≠ 11 →
      parseUrlForDataSourceInformation url =
        { dataSourceType := DataSourceType.None, dataSourceId := [] }) := by
  rw [parse_of_noGroup url hnone]
  unfold parseYouTubeVideoIdFromUrl
  rw [hcapture]
  constructor
  · intro hlen
    have hne : capture ≠ [] := by
      intro h
      rw [h] at hlen
      simp at hlen
    obtain ⟨c, cs, rfl⟩ := List.exists_cons_of_ne_nil hne
    simp only [hlen, if_true, truthy, Option.getD_some]
  · intro hlen
    simp only [hlen, if_false, truthy]
    simp

/-- C2 (amended) at `https://www.youtube.com/watch?v=dQw4w9WgXcQ`. -/
theorem C2_video_when_no_group_matches_witness :
    parseUrlForDataSourceInformation (js "https://www.youtube.com/watch?v=dQw4w9WgXcQ") =
      { dataSourceType := DataSourceType.YouTubeVideo, dataSourceId := js "dQw4w9WgXcQ" } :=
  (C2_video_when_no_group_matches (js "https://www.youtube.com/watch?v=dQw4w9WgXcQ")
    (js "dQw4w9WgXcQ") (by decide) (by decide)).1 (by decide)

/-- C3 as stated fails at `https://www.youtube.com/user/bob?list=PLabc`: the URL contains
`list=PL` followed by `abc`, yet the later Channel group matches too and the classifier
returns Channel, `bob?list=PLabc`. -/
theorem C3_counterexample :
    js "https://www.youtube.com/user/bob?list=PLabc" =
      js "https://www.youtube.com/user/bob?" ++ js "list=PL" ++ js "abc" ∧
    parseUrlForDataSourceInformation (js "https://www.youtube.com/user/bob?list=PLabc") =
      { dataSourceType := DataSourceType.YouTubeChannel,
        dataSourceId := js "bob?list=PLabc" } ∧
    parseUrlForDataSourceInformation (js "https://www.youtube.com/user/bob?list=PLabc") ≠
      { dataSourceType := DataSourceType.YouTubePlaylist,
        dataSourceId := upToAmpersand (js "abc") } := by
  decide

/-- C3, amended.  For every URL whose first occurrence of `list=PL` is followed by `X`,
where `X` cut at its first `&` is non-empty and does not contain `list=PL` again, and in
which no identifier of a later group (Favorites, AutoGenerated, Channel, SharedPlaylist)
matches, the classifier returns Playlist and the id is `X` cut at its first `&`. -/
theorem C3_playlist_PL (url pre X : JSString)
    (hfirst : FirstOccurrence (js "list=PL") pre X url)
    (hne : upToAmpersand X ≠ [])
    (hagain : ¬ js "list=PL" <:+: upToAmpersand X)
    (hlater : ∀ o ∈ dataSourceOptions.drop 1, ∀ t ∈ o.identifiers,
      ¬ identifierMatches url t) :
    parseUrlForDataSourceInformation url =
      { dataSourceType := DataSourceType.YouTubePlaylist,
        dataSourceId := upToAmpersand X } := by
  have hid : tryGetIdFromUrl url (js "list=PL") = upToAmpersand X := by
    rw [tryGetIdFromUrl_of_firstOccurrence url _ pre X (by decide) hfirst,
      extract_of_firstOccurrence_once url _ pre X (by decide) (by decide) hfirst hagain]
    rfl
  have := parse_of_lastGroup url [] (dataSourceOptions.drop 1)
    { identifiers := [js "list=PL", js "p=PL", js "list=RD", js "p=RD"],
      dataSourceType := DataSourceType.YouTubePlaylist }
    [] [js "p=PL", js "list=RD", js "p=RD"] (js "list=PL") rfl rfl
    (by unfold identifierMatches; rw [hid]; exact hne) (by simp) hlater
  rw [this, hid]

/-- C3 (amended) at `https://www.youtube.com/playlist?list=PLabc123&index=2`. -/
theorem C3_playlist_PL_witness :
    parseUrlForDataSourceInformation
        (js "https://www.youtube.com/playlist?list=PLabc123&index=2") =
      { dataSourceType := DataSourceType.YouTubePlaylist, dataSourceId := js "abc123" } :=
  (C3_playlist_PL (js "https://www.youtube.com/playlist?list=PLabc123&index=2")
    (js "https://www.youtube.com/playlist?") (js "abc123&index=2")
    (firstOccurrence_of_indexOfFrom _ _ _ _ (by decide) (by decide) (by decide))
    (by decide) (by decide) (by decide)).trans (by decide)

/-- C4 as stated fails at
`https://www.youtube.com/watch?v=dQw4w9WgXcQ&list=RDdQw4w9WgXcQ&index=1`: `list=RD` is
followed by `dQw4w9WgXcQ&index=1`, and the id is `RDdQw4w9WgXcQ`, cut at the `&`. -/
theorem C4_counterexample :
    js "https://www.youtube.com/watch?v=dQw4w9WgXcQ&list=RDdQw4w9WgXcQ&index=1" =
      js "https://www.youtube.com/watch?v=dQw4w9WgXcQ&" ++ js "list=RD" ++
        js "dQw4w9WgXcQ&index=1" ∧
    parseUrlForDataSourceInformation
        (js "https://www.youtube.com/watch?v=dQw4w9WgXcQ&list=RDdQw4w9WgXcQ&index=1") =
      { dataSourceType := DataSourceType.YouTubePlaylist,
        dataSourceId := js "RDdQw4w9WgXcQ" } ∧
    parseUrlForDataSourceInformation
        (js "https://www.youtube.com/watch?v=dQw4w9WgXcQ&list=RDdQw4w9WgXcQ&index=1") ≠
      { dataSourceType := DataSourceType.YouTubePlaylist,
        dataSourceId := js "RD" ++ js "dQw4w9WgXcQ&index=1" } := by
  decide

/-- C4, amended.  For every URL whose first occurrence of `list=RD` is followed by `X`,
where `X` cut at its first `&` is non-empty and does not contain `list=RD` again, in which
neither `list=PL` nor `p=PL` matches and no identifier of a later group matches, the
classifier returns Playlist and the id is `RD` followed by `X` cut at its first `&`. -/
theorem C4_playlist_RD (url pre X : JSString)
    (hfirst : FirstOccurrence (js "list=RD") pre X url)
    (hne : upToAmpersand X ≠ [])
    (hagain : ¬ js "list=RD" <:+: upToAmpersand X)
    (hPL : ¬ identifierMatches url (js "list=PL"))
    (hpPL : ¬ identifierMatches url (js "p=PL"))
    (hlater : ∀ o ∈ dataSourceOptions.drop 1, ∀ t ∈ o.identifiers,
      ¬ identifierMatches url t) :
    parseUrlForDataSourceInformation url =
      { dataSourceType := DataSourceType.YouTubePlaylist,
        dataSourceId := js "RD" ++ upToAmpersand X } := by
  have hid : tryGetIdFromUrl url (js "list=RD") = js "RD" ++ upToAmpersand X := by
    rw [tryGetIdFromUrl_of_firstOccurrence url _ pre X (by decide) hfirst,
      extract_of_firstOccurrence_once url _ pre X (by decide) (by decide) hfirst hagain]
    rfl
  have hm : identifierMatches url (js "list=RD") := by
    unfold identifierMatches
    rw [hid]
    intro h
    exact hne (List.append_eq_nil.1 h).2
  have := parse_of_lastGroup url [] (dataSourceOptions.drop 1)
    { identifiers := [js "list=PL", js "p=PL", js "list=RD", js "p=RD"],
      dataSourceType := DataSourceType.YouTubePlaylist }
    [js "list=PL", js "p=PL"] [js "p=RD"] (js "list=RD") rfl rfl hm
    (by
      intro t ht
      simp only [List.mem_cons, List.mem_singleton, List.not_mem_nil, or_false] at ht
      rcases ht with rfl | rfl
      · exact hPL
      · exact hpPL)
    hlater
  rw [this, hid]

/-- C4 (amended) at
`https://www.youtube.com/watch?v=dQw4w9WgXcQ&list=RDdQw4w9WgXcQ&index=1`. -/
theorem C4_playlist_RD_witness :
    parseUrlForDataSourceInformation
        (js "https://www.youtube.com/watch?v=dQw4w9WgXcQ&list=RDdQw4w9WgXcQ&index=1") =
      { dataSourceType := DataSourceType.YouTubePlaylist,
        dataSourceId := js "RD" ++ js "dQw4w9WgXcQ" } :=
  (C4_playlist_RD
    (js "https://www.youtube.com/watch?v=dQw4w9WgXcQ&list=RDdQw4w9WgXcQ&index=1")
    (js "https://www.youtube.com/watch?v=dQw4w9WgXcQ&") (js "dQw4w9WgXcQ&index=1")
    (firstOccurrence_of_indexOfFrom _ _ _ _ (by decide) (by decide) (by decide))
    (by decide) (by decide) (by decide) (by decide) (by decide)).trans (by decide)

/-- C5 as stated fails at `https://www.youtube.com/playlist?list=PLabc#list=PLdef` with
the identifier `list=PL`: no `&` follows its first occurrence, so the claim gives the whole
remainder `abc#list=PLdef`, while the code extracts `abc#`, cut at the second occurrence. -/
theorem C5_counterexample :
    FirstOccurrence (js "list=PL") (js "https://www.youtube.com/playlist?")
      (js "abc#list=PLdef") (js "https://www.youtube.com/playlist?list=PLabc#list=PLdef") ∧
    upToAmpersand (js "abc#list=PLdef") = js "abc#list=PLdef" ∧
    extractAfterIdentifier (js "https://www.youtube.com/playlist?list=PLabc#list=PLdef")
      (js "list=PL") = js "abc#" ∧
    extractAfterIdentifier (js "https://www.youtube.com/playlist?list=PLabc#list=PLdef")
      (js "list=PL") ≠ upToAmpersand (js "abc#list=PLdef") :=
  ⟨firstOccurrence_of_indexOfFrom _ _ _ _ (by decide) (by decide) (by decide),
    by decide, by decide, by decide⟩

/-- C5, amended.  For every URL and every non-empty identifier (each of the thirteen is)
that occurs in it, the text `tryGetIdFromUrl` extracts before any `AL`/`RD` re-prefixing is
what follows the first occurrence of the identifier up to, but excluding, the next `&` or
the next occurrence of the same identifier, whichever comes first, and the whole remainder
when neither follows: with `rest` the text after the first occurrence, it is `rest` cut at
its first `&` when the identifier does not occur in `rest`, and otherwise the part of
`rest` before the next occurrence, cut at its first `&`. -/
theorem C5_extraction (url identifier pre rest : JSString)
    (hne : identifier ≠ []) (hfirst : FirstOccurrence identifier pre rest url) :
    (¬ identifier <:+: rest → extractAfterIdentifier url identifier = upToAmpersand rest) ∧
    (∀ mid r, FirstOccurrence identifier mid r rest →
      extractAfterIdentifier url identifier = upToAmpersand mid) ∧
    tryGetIdFromUrl url identifier =
      withIdentifierPrefix identifier (extractAfterIdentifier url identifier) :=
  ⟨(extract_of_firstOccurrence url identifier pre rest hne hfirst).1,
    (extract_of_firstOccurrence url identifier pre rest hne hfirst).2,
    tryGetIdFromUrl_of_firstOccurrence url identifier pre rest hne hfirst⟩

/-- C5 (amended) at `https://www.youtube.com/playlist?list=PLabc#list=PLdef`: the
extraction ends where `list=PL` occurs again. -/
theorem C5_extraction_witness :
    extractAfterIdentifier (js "https://www.youtube.com/playlist?list=PLabc#list=PLdef")
      (js "list=PL") = upToAmpersand (js "abc#") :=
  (C5_extraction (js "https://www.youtube.com/playlist?list=PLabc#list=PLdef")
    (js "list=PL") (js "https://www.youtube.com/playlist?") (js "abc#list=PLdef")
    (by decide)
    (firstOccurrence_of_indexOfFrom _ _ _ _ (by decide) (by decide) (by decide))).2.1
    (js "abc#") (js "def")
    (firstOccurrence_of_indexOfFrom _ _ _ _ (by decide) (by decide) (by decide))

/-- C6: the code at `https://www.youtube.com/watch?v=dQw4w9WgXcQ&list=RD`.  Nothing
follows `list=RD`, the extracted text is empty, and still the identifier is taken as
matching, because `RD` is put in front before the test of line 125: the classifier returns
Playlist with id `RD`.  The same URL with `list=PL` at its end is not classified through
that identifier and is a Video. -/
theorem C6_RD_matches_on_empty_extraction :
    extractAfterIdentifier (js "https://www.youtube.com/watch?v=dQw4w9WgXcQ&list=RD")
      (js "list=RD") = [] ∧
    identifierMatches (js "https://www.youtube.com/watch?v=dQw4w9WgXcQ&list=RD")
      (js "list=RD") ∧
    parseUrlForDataSourceInformation
        (js "https://www.youtube.com/watch?v=dQw4w9WgXcQ&list=RD") =
      { dataSourceType := DataSourceType.YouTubePlaylist, dataSourceId := js "RD" } ∧
    ¬ identifierMatches (js "https://www.youtube.com/watch?v=dQw4w9WgXcQ&list=PL")
      (js "list=PL") ∧
    parseUrlForDataSourceInformation
        (js "https://www.youtube.com/watch?v=dQw4w9WgXcQ&list=PL") =
      { dataSourceType := DataSourceType.YouTubeVideo, dataSourceId := js "dQw4w9WgXcQ" } := by
  decide

/-- C7. For every URL the classifier returns a result (it is a total function), and the
returned id is empty if and only if the returned kind is None. -/
theorem C7_id_empty_iff_None (url : JSString) :
    (parseUrlForDataSourceInformation url).dataSourceId = [] ↔
      (parseUrlForDataSourceInformation url).dataSourceType = DataSourceType.None := by
  by_cases h : ∃ o ∈ dataSourceOptions, ∃ t ∈ o.identifiers, identifierMatches url t
  · obtain ⟨before, g, after, hopts, hg, hafter⟩ :=
      exists_last_of_exists (fun o : DataSourceOption =>
        ∃ t ∈ o.identifiers, identifierMatches url t) dataSourceOptions h
    obtain ⟨pre, tok, post, hids, htok, hpre⟩ :=
      exists_first_of_exists (fun t => identifierMatches url t) g.identifiers hg
    rw [parse_of_lastGroup url before after g pre post tok hopts hids htok hpre
      (fun o ho t ht hm => hafter o ho ⟨t, ht, hm⟩)]
    have hgne : g.dataSourceType ≠ DataSourceType.None :=
      dataSourceType_ne_None_of_mem g (by rw [hopts]; simp)
    constructor
    · intro hid; exact absurd hid htok
    · intro hty; exact absurd hty hgne
  · have hnone : ∀ o ∈ dataSourceOptions, ∀ t ∈ o.identifiers,
        ¬ identifierMatches url t := fun o ho t ht hm => h ⟨o, ho, t, ht, hm⟩
    rw [parse_of_noGroup url hnone]
    cases hv : parseYouTubeVideoIdFromUrl url with
    | none => simp [truthy]
    | some v =>
      cases v with
      | nil => simp [truthy]
      | cons c cs => simp [truthy]

/-- C8. For every sourceId `X` (and whatever the other attributes), `setUrl` stores
`https://gdata.youtube.com/feeds/api/` followed by `users/X/uploads` for a Channel, by
`users/X/favorites` for Favorites and by `playlists/X` for a Playlist, and stores the empty
string for each of None, Video, AutoGenerated and SharedPlaylist. -/
theorem C8_setUrl (X url title : JSString) (bound : Bool) :
    (setUrl ⟨DataSourceType.YouTubeChannel, X, url, title, bound⟩).url =
      js "https://gdata.youtube.com/feeds/api/" ++ js "users/" ++ X ++ js "/uploads" ∧
    (setUrl ⟨DataSourceType.YouTubeFavorites, X, url, title, bound⟩).url =
      js "https://gdata.youtube.com/feeds/api/" ++ js "users/" ++ X ++ js "/favorites" ∧
    (setUrl ⟨DataSourceType.YouTubePlaylist, X, url, title, bound⟩).url =
      js "https://gdata.youtube.com/feeds/api/" ++ js "playlists/" ++ X ∧
    (setUrl ⟨DataSourceType.None, X, url, title, bound⟩).url = [] ∧
    (setUrl ⟨DataSourceType.YouTubeVideo, X, url, title, bound⟩).url = [] ∧
    (setUrl ⟨DataSourceType.YouTubeAutoGenerated, X, url, title, bound⟩).url = [] ∧
    (setUrl ⟨DataSourceType.SharedPlaylist, X, url, title, bound⟩).url = [] := by
  simp [setUrl, craftUrl]

/-! ## The model after construction and under updates -/

theorem initializeModel_changeTypeBound (self : Model) (options : Option Options) :
    (initializeModel self options).changeTypeBound = true := rfl

theorem initializeModel_url (self : Model) (options : Option Options) :
    (initializeModel self options).url =
      craftUrl (initializeModel self options).type (initializeModel self options).sourceId :=
  rfl

theorem setType_consistent (self : Model) (value : DataSourceType)
    (hbound : self.changeTypeBound = true)
    (hurl : self.url = craftUrl self.type self.sourceId) :
    (setType self value).changeTypeBound = true ∧
      (setType self value).url =
        craftUrl (setType self value).type (setType self value).sourceId := by
  unfold setType
  by_cases hv : value = self.type
  · rw [if_pos hv]; exact ⟨hbound, hurl⟩
  · rw [if_neg hv]
    simp only [hbound, if_true]
    exact ⟨rfl, rfl⟩

theorem applyUpdates_type_consistent (values : List DataSourceType) :
    ∀ (self : Model), self.changeTypeBound = true →
      self.url = craftUrl self.type self.sourceId →
      (applyUpdates self (values.map Update.type)).url =
        craftUrl (applyUpdates self (values.map Update.type)).type
          (applyUpdates self (values.map Update.type)).sourceId := by
  induction values with
  | nil => intro self _ hurl; exact hurl
  | cons value values ih =>
    intro self hbound hurl
    have hstep := setType_consistent self value hbound hurl
    exact ih (setType self value) hstep.1 hstep.2

theorem setType_of_not_bound (self : Model) (value : DataSourceType)
    (hb : self.changeTypeBound = false) :
    setType self value = { self with type := value } := by
  unfold setType
  by_cases hv : value = self.type
  · rw [if_pos hv, hv]
  · rw [if_neg hv]
    simp [hb]

theorem initializeModel_of_urlToParse (self : Model) (options : Options) (u : JSString)
    (hu : options.urlToParse = some u) (hne : u ≠ [])
    (hb : self.changeTypeBound = false) :
    (initializeModel self (some options)).type =
        (parseUrlForDataSourceInformation u).dataSourceType ∧
      (initializeModel self (some options)).sourceId =
        (parseUrlForDataSourceInformation u).dataSourceId ∧
      (initializeModel self (some options)).url =
        craftUrl (parseUrlForDataSourceInformation u).dataSourceType
          (parseUrlForDataSourceInformation u).dataSourceId := by
  obtain ⟨c, cs, rfl⟩ := List.exists_cons_of_ne_nil hne
  have hbind : ((some options).bind fun o => o.urlToParse) = some (c :: cs) := by
    simp [hu]
  unfold initializeModel
  simp only [hbind, truthy, if_true, Option.getD_some, setType_of_not_bound _ _ hb,
    setSourceId, setUrl]
  exact ⟨trivial, trivial, trivial⟩

/-- C9 as stated fails: on a model created without arguments, `type` is set to Playlist and
then `sourceId` to `abc`; the stored url remains the one crafted for the empty id. -/
theorem C9_counterexample :
    (applyUpdates (create none)
        [Update.type DataSourceType.YouTubePlaylist, Update.sourceId (js "abc")]).url =
      js "https://gdata.youtube.com/feeds/api/playlists/" ∧
    craftUrl
        (applyUpdates (create none)
          [Update.type DataSourceType.YouTubePlaylist, Update.sourceId (js "abc")]).type
        (applyUpdates (create none)
          [Update.type DataSourceType.YouTubePlaylist, Update.sourceId (js "abc")]).sourceId =
      js "https://gdata.youtube.com/feeds/api/playlists/abc" ∧
    (applyUpdates (create none)
        [Update.type DataSourceType.YouTubePlaylist, Update.sourceId (js "abc")]).url ≠
      craftUrl
        (applyUpdates (create none)
          [Update.type DataSourceType.YouTubePlaylist, Update.sourceId (js "abc")]).type
        (applyUpdates (create none)
          [Update.type DataSourceType.YouTubePlaylist, Update.sourceId (js "abc")]).sourceId := by
  decide

/-- C9, amended.  In every state reachable from a freshly created DataSource by any
sequence of updates to `type`, the stored url is the one `setUrl` crafts for the current
`type` and `sourceId`: it is recomputed whenever `type` changes.  An update of `sourceId`
alone leaves the stored url as it was. -/
theorem C9_url_follows_type (options : Option Options) (values : List DataSourceType) :
    (applyUpdates (create options) (values.map Update.type)).url =
        craftUrl (applyUpdates (create options) (values.map Update.type)).type
          (applyUpdates (create options) (values.map Update.type)).sourceId ∧
    (∀ (self : Model) (value : JSString),
      (applyUpdate self (Update.sourceId value)).url = self.url) :=
  ⟨applyUpdates_type_consistent values (create options)
      (initializeModel_changeTypeBound _ _) (initializeModel_url _ _),
    fun _ _ => rfl⟩

/-- C10. For every non-empty URL `u`, a DataSource created with `urlToParse = u` ends
its construction with `type` and `sourceId` as the classifier returns them for `u` and with
the url `setUrl` crafts for that pair.  For `https://www.youtube.com/playlist?list=PLabc123`
this is Playlist, `abc123` and a url ending in `playlists/abc123`; for
`https://www.youtube.com/watch?v=dQw4w9WgXcQ` it is Video, `dQw4w9WgXcQ` and the empty
url. -/
theorem C10_create_from_url :
    (∀ (options : Options) (u : JSString), options.urlToParse = some u → u ≠ [] →
      (create (some options)).type = (parseUrlForDataSourceInformation u).dataSourceType ∧
      (create (some options)).sourceId = (parseUrlForDataSourceInformation u).dataSourceId ∧
      (create (some options)).url =
        craftUrl (parseUrlForDataSourceInformation u).dataSourceType
          (parseUrlForDataSourceInformation u).dataSourceId) ∧
    ((create (some
          { urlToParse := some (js "https://www.youtube.com/playlist?list=PLabc123") })).type =
        DataSourceType.YouTubePlaylist ∧
      (create (some
          { urlToParse := some (js "https://www.youtube.com/playlist?list=PLabc123") })).sourceId =
        js "abc123" ∧
      (create (some
          { urlToParse := some (js "https://www.youtube.com/playlist?list=PLabc123") })).url =
        js "https://gdata.youtube.com/feeds/api/playlists/abc123" ∧
      js "playlists/abc123" <:+ (create (some
          { urlToParse := some (js "https://www.youtube.com/playlist?list=PLabc123") })).url) ∧
    ((create (some
          { urlToParse := some (js "https://www.youtube.com/watch?v=dQw4w9WgXcQ") })).type =
        DataSourceType.YouTubeVideo ∧
      (create (some
          { urlToParse := some (js "https://www.youtube.com/watch?v=dQw4w9WgXcQ") })).sourceId =
        js "dQw4w9WgXcQ" ∧
      (create (some
          { urlToParse := some (js "https://www.youtube.com/watch?v=dQw4w9WgXcQ") })).url =
        []) := by
  refine ⟨?_, by decide, by decide⟩
  intro options u hu hne
  exact initializeModel_of_urlToParse _ options u hu hne rfl

/-- C10 at `https://youtu.be/dQw4w9WgXcQ`, given together with a `title`. -/
theorem C10_create_from_url_witness :
    (create (some ⟨none, none, none, some (js "t"),
      some (js "https://youtu.be/dQw4w9WgXcQ")⟩)).type = DataSourceType.YouTubeVideo :=
  ((C10_create_from_url.1
    ⟨none, none, none, some (js "t"), some (js "https://youtu.be/dQw4w9WgXcQ")⟩
    (js "https://youtu.be/dQw4w9WgXcQ") rfl (by decide)).1).trans (by decide)

/-- C11. For every model, `needsLoading` is true exactly when the kind is one of Channel,
Favorites, Playlist, AutoGenerated, and `isV3` is true exactly when the kind is
AutoGenerated. -/
theorem C11_needsLoading_isV3 (self : Model) :
    (needsLoading self = true ↔
      self.type = DataSourceType.YouTubeChannel ∨
      self.type = DataSourceType.YouTubeFavorites ∨
      self.type = DataSourceType.YouTubePlaylist ∨
      self.type = DataSourceType.YouTubeAutoGenerated) ∧
    (isV3 self = true ↔ self.type = DataSourceType.YouTubeAutoGenerated) := by
  cases h : self.type <;> simp [needsLoading, isV3, h]

/-! ## One call of `getTitle` -/

theorem getTitle_of_title (self : Model) (notifyOnError : Option Bool)
    (remote : RemoteCall → Option JSString) (h : self.title ≠ []) :
    getTitle self notifyOnError remote =
      { self := self, trace := [Effect.success self.title] } := by
  unfold getTitle
  simp [h, optionsSuccess, emit]

/-- The call that `getTitle` sends for a kind that has a remote lookup. -/
theorem getTitle_of_lookup (self : Model) (notifyOnError : Option Bool)
    (remote : RemoteCall → Option JSString) (h : self.title = []) (call : RemoteCall)
    (hcall :
      (self.type = DataSourceType.YouTubePlaylist ∧
        call = RemoteCall.getPlaylistTitle self.sourceId) ∨
      ((self.type = DataSourceType.YouTubeFavorites ∨
          self.type = DataSourceType.YouTubeChannel) ∧
        call = RemoteCall.getChannelName self.sourceId)) :
    getTitle self notifyOnError remote =
      match remote call with
      | some title =>
        { self := setTitle self title,
          trace := [Effect.remote call, Effect.success title] }
      | none => { self := self, trace := [Effect.remote call, Effect.error] } := by
  unfold getTitle
  rcases hcall with ⟨ht, rfl⟩ | ⟨ht | ht, rfl⟩ <;>
    simp only [h, ne_eq, not_true_eq_false, if_false, ht, YouTubeV2API] <;>
    cases remote _ <;> simp [onRemoteSuccess, optionsSuccess, optionsError, emit]

theorem getTitle_of_autoGenerated (self : Model) (notifyOnError : Option Bool)
    (remote : RemoteCall → Option JSString) (h : self.title = [])
    (ht : self.type = DataSourceType.YouTubeAutoGenerated) :
    getTitle self notifyOnError remote =
      match remote (RemoteCall.getAutoGeneratedPlaylistTitle self.sourceId) with
      | some title =>
        { self := setTitle self title,
          trace := [Effect.remote (RemoteCall.getAutoGeneratedPlaylistTitle self.sourceId),
            Effect.success title] }
      | none =>
        { self := self,
          trace := [Effect.remote (RemoteCall.getAutoGeneratedPlaylistTitle self.sourceId)] } := by
  unfold getTitle
  simp only [h, ne_eq, not_true_eq_false, if_false, ht, YouTubeV3API]
  cases remote _ <;> simp [onRemoteSuccess, optionsSuccess, emit]

theorem getTitle_of_unhandled (self : Model) (notifyOnError : Option Bool)
    (remote : RemoteCall → Option JSString) (h : self.title = [])
    (ht : self.type = DataSourceType.SharedPlaylist ∨ self.type = DataSourceType.None ∨
      self.type = DataSourceType.YouTubeVideo) :
    getTitle self notifyOnError remote =
      { self := self,
        trace := (if notifyOnError.getD true then [Effect.consoleError self.type] else []) ++
          [Effect.error] } := by
  unfold getTitle
  rcases ht with ht | ht | ht <;>
    simp only [h, ne_eq, not_true_eq_false, if_false, ht] <;>
    cases notifyOnError.getD true <;> simp [optionsError, emit]

/-- Outside the AutoGenerated branch with a failing lookup, a call of `getTitle` calls
exactly one of `options.success` and `options.error`, once. -/
theorem getTitle_signals_once (self : Model) (notifyOnError : Option Bool)
    (remote : RemoteCall → Option JSString)
    (h : self.title ≠ [] ∨ self.type ≠ DataSourceType.YouTubeAutoGenerated ∨
      remote (RemoteCall.getAutoGeneratedPlaylistTitle self.sourceId) ≠ none) :
    successCount (getTitle self notifyOnError remote).trace +
      errorCount (getTitle self notifyOnError remote).trace = 1 := by
  by_cases htitle : self.title = []
  · cases ht : self.type with
    | None =>
      rw [getTitle_of_unhandled self notifyOnError remote htitle (Or.inr (Or.inl ht))]
      cases notifyOnError.getD true <;> simp [successCount, errorCount]
    | YouTubeVideo =>
      rw [getTitle_of_unhandled self notifyOnError remote htitle (Or.inr (Or.inr ht))]
      cases notifyOnError.getD true <;> simp [successCount, errorCount]
    | SharedPlaylist =>
      rw [getTitle_of_unhandled self notifyOnError remote htitle (Or.inl ht)]
      cases notifyOnError.getD true <;> simp [successCount, errorCount]
    | YouTubePlaylist =>
      rw [getTitle_of_lookup self notifyOnError remote htitle _ (Or.inl ⟨ht, rfl⟩)]
      cases remote (RemoteCall.getPlaylistTitle self.sourceId) <;>
        simp [successCount, errorCount]
    | YouTubeFavorites =>
      rw [getTitle_of_lookup self notifyOnError remote htitle _ (Or.inr ⟨Or.inl ht, rfl⟩)]
      cases remote (RemoteCall.getChannelName self.sourceId) <;>
        simp [successCount, errorCount]
    | YouTubeChannel =>
      rw [getTitle_of_lookup self notifyOnError remote htitle _ (Or.inr ⟨Or.inr ht, rfl⟩)]
      cases remote (RemoteCall.getChannelName self.sourceId) <;>
        simp [successCount, errorCount]
    | YouTubeAutoGenerated =>
      rw [getTitle_of_autoGenerated self notifyOnError remote htitle ht]
      cases hr : remote (RemoteCall.getAutoGeneratedPlaylistTitle self.sourceId) with
      | none =>
        rcases h with h | h | h
        · exact absurd htitle h
        · exact absurd ht h
        · exact absurd hr h
      | some t => simp [successCount, errorCount]
  · rw [getTitle_of_title self notifyOnError remote htitle]
    simp [successCount, errorCount]

/-- C12: the code on an AutoGenerated reference with an empty title whose remote lookup
fails.  The request is sent and neither `options.success` nor `options.error` is called:
the call given to `YouTubeV3API` has no error callback (line 212).  On a Playlist reference
the same failure calls `options.error` once. -/
theorem C12_autoGenerated_failure_signals_nothing :
    (getTitle ⟨DataSourceType.YouTubeAutoGenerated, js "ALabc", [], [], true⟩ none
        fun _ => none).trace =
      [Effect.remote (RemoteCall.getAutoGeneratedPlaylistTitle (js "ALabc"))] ∧
    successCount (getTitle ⟨DataSourceType.YouTubeAutoGenerated, js "ALabc", [], [], true⟩
      none fun _ => none).trace = 0 ∧
    errorCount (getTitle ⟨DataSourceType.YouTubeAutoGenerated, js "ALabc", [], [], true⟩
      none fun _ => none).trace = 0 ∧
    successCount (getTitle ⟨DataSourceType.YouTubePlaylist, js "abc", [], [], true⟩
      none fun _ => none).trace = 0 ∧
    errorCount (getTitle ⟨DataSourceType.YouTubePlaylist, js "abc", [], [], true⟩
      none fun _ => none).trace = 1 := by
  decide

/-- C13. For every reference whose title is non-empty, whatever its kind, `getTitle` calls
`options.success` exactly once, with the stored title, does not call `options.error`,
sends no request to a remote service, and leaves the reference as it is. -/
theorem C13_cached_title (self : Model) (notifyOnError : Option Bool)
    (remote : RemoteCall → Option JSString) (h : self.title ≠ []) :
    (getTitle self notifyOnError remote).trace = [Effect.success self.title] ∧
    successCount (getTitle self notifyOnError remote).trace = 1 ∧
    errorCount (getTitle self notifyOnError remote).trace = 0 ∧
    remoteCalls (getTitle self notifyOnError remote).trace = [] ∧
    (getTitle self notifyOnError remote).self = self := by
  rw [getTitle_of_title self notifyOnError remote h]
  simp [successCount, errorCount, remoteCalls]

/-- C13 on a SharedPlaylist reference with the title `t`. -/
theorem C13_cached_title_witness :
    (getTitle ⟨DataSourceType.SharedPlaylist, js "x", [], js "t", true⟩ none
      fun _ => some (js "other")).trace = [Effect.success (js "t")] :=
  (C13_cached_title ⟨DataSourceType.SharedPlaylist, js "x", [], js "t", true⟩ none
    (fun _ => some (js "other")) (by decide)).1

/-- C14. For every reference with an empty title: a Playlist sends `getPlaylistTitle`
keyed by its `sourceId`, Favorites and a Channel send `getChannelName` keyed by their
`sourceId`, and nothing else is sent; when the lookup succeeds with `t`, the title becomes
`t` and `options.success` is called with `t` (and `options.error` is not); when it fails,
`options.error` is called (and `options.success` is not) and the title stays empty. -/
theorem C14_lookup_by_kind (self : Model) (notifyOnError : Option Bool)
    (remote : RemoteCall → Option JSString) (h : self.title = []) (call : RemoteCall)
    (hcall :
      (self.type = DataSourceType.YouTubePlaylist ∧
        call = RemoteCall.getPlaylistTitle self.sourceId) ∨
      ((self.type = DataSourceType.YouTubeFavorites ∨
          self.type = DataSourceType.YouTubeChannel) ∧
        call = RemoteCall.getChannelName self.sourceId)) :
    remoteCalls (getTitle self notifyOnError remote).trace = [call] ∧
    (∀ t, remote call = some t →
      (getTitle self notifyOnError remote).self.title = t ∧
      (getTitle self notifyOnError remote).trace = [Effect.remote call, Effect.success t]) ∧
    (remote call = none →
      (getTitle self notifyOnError remote).self.title = [] ∧
      (getTitle self notifyOnError remote).trace = [Effect.remote call, Effect.error]) := by
  rw [getTitle_of_lookup self notifyOnError remote h call hcall]
  cases hr : remote call with
  | none => simp [remoteCalls, h]
  | some t => simp [remoteCalls, setTitle]

/-- C14 on a Channel reference whose lookup succeeds with `Bob`. -/
theorem C14_lookup_by_kind_witness :
    (getTitle ⟨DataSourceType.YouTubeChannel, js "bob", [], [], true⟩ none
        fun _ => some (js "Bob")).self.title = js "Bob" ∧
    (getTitle ⟨DataSourceType.YouTubeChannel, js "bob", [], [], true⟩ none
        fun _ => some (js "Bob")).trace =
      [Effect.remote (RemoteCall.getChannelName (js "bob")), Effect.success (js "Bob")] :=
  (C14_lookup_by_kind ⟨DataSourceType.YouTubeChannel, js "bob", [], [], true⟩ none
    (fun _ => some (js "Bob")) rfl (RemoteCall.getChannelName (js "bob"))
    (Or.inr ⟨Or.inr rfl, rfl⟩)).2.1 (js "Bob") rfl

/-- C15 as stated fails on a SharedPlaylist reference whose title is already `t`:
`options.success` is called with `t` and `options.error` is not called. -/
theorem C15_counterexample :
    (getTitle ⟨DataSourceType.SharedPlaylist, js "x", [], js "t", true⟩ none
        fun _ => none).trace = [Effect.success (js "t")] ∧
    successCount (getTitle ⟨DataSourceType.SharedPlaylist, js "x", [], js "t", true⟩ none
      fun _ => none).trace = 1 ∧
    errorCount (getTitle ⟨DataSourceType.SharedPlaylist, js "x", [], js "t", true⟩ none
      fun _ => none).trace = 0 := by
  decide

/-- C15, amended.  For every reference of kind SharedPlaylist, None or Video whose title is
empty, whatever its other attributes and whatever `notifyOnError`, `getTitle` calls
`options.error` once, never calls `options.success`, sends no request to a remote service
and leaves the reference as it is; `console.error` names the kind when `notifyOnError` is
true or left out. -/
theorem C15_unhandled_kind (self : Model) (notifyOnError : Option Bool)
    (remote : RemoteCall → Option JSString) (h : self.title = [])
    (ht : self.type = DataSourceType.SharedPlaylist ∨ self.type = DataSourceType.None ∨
      self.type = DataSourceType.YouTubeVideo) :
    (getTitle self notifyOnError remote).trace =
      (if notifyOnError.getD true then [Effect.consoleError self.type] else []) ++
        [Effect.error] ∧
    errorCount (getTitle self notifyOnError remote).trace = 1 ∧
    successCount (getTitle self notifyOnError remote).trace = 0 ∧
    remoteCalls (getTitle self notifyOnError remote).trace = [] ∧
    (getTitle self notifyOnError remote).self = self := by
  rw [getTitle_of_unhandled self notifyOnError remote h ht]
  cases notifyOnError.getD true <;> simp [successCount, errorCount, remoteCalls]

/-- C15 (amended) on a Video reference, with `notifyOnError` false. -/
theorem C15_unhandled_kind_witness :
    (getTitle ⟨DataSourceType.YouTubeVideo, js "dQw4w9WgXcQ", [], [], true⟩ (some false)
      fun _ => some (js "other")).trace = [Effect.error] :=
  (C15_unhandled_kind ⟨DataSourceType.YouTubeVideo, js "dQw4w9WgXcQ", [], [], true⟩
    (some false) (fun _ => some (js "other")) rfl (Or.inr (Or.inr rfl))).1

/-! ## What `getTitle` writes -/

/-- A call of `getTitle` leaves the model as it is, or it found the title empty, sent one
request that succeeded, and stored the title it received. -/
theorem getTitle_self (self : Model) (notifyOnError : Option Bool)
    (remote : RemoteCall → Option JSString) :
    (getTitle self notifyOnError remote).self = self ∨
    (self.title = [] ∧ ∃ call t,
      remoteCalls (getTitle self notifyOnError remote).trace = [call] ∧
      remote call = some t ∧
      (getTitle self notifyOnError remote).self = setTitle self t) := by
  by_cases h : self.title = []
  · cases ht : self.type with
    | None =>
      rw [getTitle_of_unhandled self notifyOnError remote h (Or.inr (Or.inl ht))]
      exact Or.inl rfl
    | YouTubeVideo =>
      rw [getTitle_of_unhandled self notifyOnError remote h (Or.inr (Or.inr ht))]
      exact Or.inl rfl
    | SharedPlaylist =>
      rw [getTitle_of_unhandled self notifyOnError remote h (Or.inl ht)]
      exact Or.inl rfl
    | YouTubePlaylist =>
      rw [getTitle_of_lookup self notifyOnError remote h _ (Or.inl ⟨ht, rfl⟩)]
      cases hr : remote (RemoteCall.getPlaylistTitle self.sourceId) with
      | none => exact Or.inl rfl
      | some t => exact Or.inr ⟨h, _, t, by simp [remoteCalls], hr, rfl⟩
    | YouTubeFavorites =>
      rw [getTitle_of_lookup self notifyOnError remote h _ (Or.inr ⟨Or.inl ht, rfl⟩)]
      cases hr : remote (RemoteCall.getChannelName self.sourceId) with
      | none => exact Or.inl rfl
      | some t => exact Or.inr ⟨h, _, t, by simp [remoteCalls], hr, rfl⟩
    | YouTubeChannel =>
      rw [getTitle_of_lookup self notifyOnError remote h _ (Or.inr ⟨Or.inr ht, rfl⟩)]
      cases hr : remote (RemoteCall.getChannelName self.sourceId) with
      | none => exact Or.inl rfl
      | some t => exact Or.inr ⟨h, _, t, by simp [remoteCalls], hr, rfl⟩
    | YouTubeAutoGenerated =>
      rw [getTitle_of_autoGenerated self notifyOnError remote h ht]
      cases hr : remote (RemoteCall.getAutoGeneratedPlaylistTitle self.sourceId) with
      | none => exact Or.inl rfl
      | some t => exact Or.inr ⟨h, _, t, by simp [remoteCalls], hr, rfl⟩
  · rw [getTitle_of_title self notifyOnError remote h]
    exact Or.inl rfl

theorem getTitleAll_of_title (requests : List TitleRequest) :
    ∀ (self : Model), self.title ≠ [] → getTitleAll self requests = self := by
  induction requests with
  | nil => intro self _; rfl
  | cons r rs ih =>
    intro self h
    rw [getTitleAll, getTitle_of_title self r.notifyOnError r.remote h]
    exact ih self h

theorem getTitleAll_append (a b : List TitleRequest) :
    ∀ (self : Model), getTitleAll self (a ++ b) = getTitleAll (getTitleAll self a) b := by
  induction a with
  | nil => intro self; rfl
  | cons r rs ih =>
    intro self
    rw [List.cons_append, getTitleAll, getTitleAll, ih]

theorem titleChanges_of_title (requests : List TitleRequest) :
    ∀ (self : Model), self.title ≠ [] → titleChanges self requests = 0 := by
  induction requests with
  | nil => intro self _; rfl
  | cons r rs ih =>
    intro self h
    rw [titleChanges, getTitle_of_title self r.notifyOnError r.remote h]
    simp [ih self h]

theorem titleChanges_le_one (requests : List TitleRequest) :
    ∀ (self : Model), titleChanges self requests ≤ 1 := by
  induction requests with
  | nil => intro self; simp [titleChanges]
  | cons r rs ih =>
    intro self
    rw [titleChanges]
    rcases getTitle_self self r.notifyOnError r.remote with hs | ⟨h, call, t, _, _, hs⟩
    · rw [hs]
      simpa using ih self
    · rw [hs]
      by_cases ht : t = []
      · have hsame : (setTitle self t).title = self.title := by rw [ht, h]; rfl
        rw [if_neg (by simpa using hsame)]
        simpa using ih (setTitle self t)
      · have hne : (setTitle self t).title ≠ [] := ht
        rw [titleChanges_of_title rs (setTitle self t) hne]
        split <;> simp

/-- C16. For every reference and every sequence of `getTitle` calls, each run to
completion against arbitrary remote outcomes: once the title is non-empty, after any
number `a` of the calls, the calls `b` that follow leave it as it is; and over the whole
sequence the title changes at most once. -/
theorem C16_title_set_once (self : Model) (a b : List TitleRequest) :
    ((getTitleAll self a).title ≠ [] →
      (getTitleAll self (a ++ b)).title = (getTitleAll self a).title) ∧
    titleChanges self (a ++ b) ≤ 1 := by
  refine ⟨?_, titleChanges_le_one (a ++ b) self⟩
  intro h
  rw [getTitleAll_append, getTitleAll_of_title b _ h]

/-- C16 on a Playlist reference: a first lookup succeeds with `Mix`, a second call whose
lookup would give `Other` leaves the title `Mix`. -/
theorem C16_title_set_once_witness :
    (getTitleAll ⟨DataSourceType.YouTubePlaylist, js "abc", [], [], true⟩
      [⟨none, fun _ => some (js "Mix")⟩, ⟨none, fun _ => some (js "Other")⟩]).title =
      js "Mix" :=
  ((C16_title_set_once ⟨DataSourceType.YouTubePlaylist, js "abc", [], [], true⟩
    [⟨none, fun _ => some (js "Mix")⟩] [⟨none, fun _ => some (js "Other")⟩]).1
    (by decide)).trans (by decide)

/-- C17. For every reference and every remote outcome, `getTitle` leaves `type`,
`sourceId` and `url` (and the binding of `setUrl`) as they are; the title is either left as
it is, or it was empty, one request was sent to a remote service, the lookup succeeded and
the title is the one it returned. -/
theorem C17_getTitle_frame (self : Model) (notifyOnError : Option Bool)
    (remote : RemoteCall → Option JSString) :
    (getTitle self notifyOnError remote).self.type = self.type ∧
    (getTitle self notifyOnError remote).self.sourceId = self.sourceId ∧
    (getTitle self notifyOnError remote).self.url = self.url ∧
    (getTitle self notifyOnError remote).self.changeTypeBound = self.changeTypeBound ∧
    ((getTitle self notifyOnError remote).self.title = self.title ∨
      (self.title = [] ∧ ∃ call t,
        remoteCalls (getTitle self notifyOnError remote).trace = [call] ∧
        remote call = some t ∧
        (getTitle self notifyOnError remote).self.title = t)) := by
  rcases getTitle_self self notifyOnError remote with hs | ⟨h, call, t, hc, hr, hs⟩
  · rw [hs]
    exact ⟨rfl, rfl, rfl, rfl, Or.inl rfl⟩
  · refine ⟨by rw [hs]; rfl, by rw [hs]; rfl, by rw [hs]; rfl, by rw [hs]; rfl, Or.inr ?_⟩
    exact ⟨h, call, t, hc, hr, by rw [hs]; rfl⟩

/-! ## The ids the classifier returns -/

theorem ampersand_not_mem_upToAmpersand (s : JSString) : ampersand ∉ upToAmpersand s := by
  intro h
  have := List.mem_takeWhile_imp h
  simp at this

theorem ampersand_not_mem_withIdentifierPrefix (identifier s : JSString)
    (h : ampersand ∉ s) : ampersand ∉ withIdentifierPrefix identifier s := by
  unfold withIdentifierPrefix
  have hAL : ampersand ∉ js "AL" := by decide
  have hRD : ampersand ∉ js "RD" := by decide
  split
  · simp [List.mem_append, hAL, h]
  · split
    · simp [List.mem_append, hRD, h]
    · exact h

theorem ampersand_not_mem_tryGetIdFromUrl (url identifier : JSString) :
    ampersand ∉ tryGetIdFromUrl url identifier := by
  unfold tryGetIdFromUrl
  simp only
  split
  · apply ampersand_not_mem_withIdentifierPrefix
    rw [extractAfterIdentifier_eq_upToAmpersand]
    exact ampersand_not_mem_upToAmpersand _
  · simp

theorem ampersand_not_mem_videoId (url capture : JSString)
    (h : parseYouTubeVideoIdFromUrl url = some capture) : ampersand ∉ capture := by
  unfold parseYouTubeVideoIdFromUrl at h
  cases hm : matchVideoId url with
  | none => rw [hm] at h; simp at h
  | some c =>
    rw [hm] at h
    simp only at h
    split at h
    · have hc : c = capture := Option.some.inj h
      subst hc
      unfold matchVideoId at hm
      cases hs : matchStarGroup1 url with
      | none => rw [hs] at hm; simp at hm
      | some rest =>
        rw [hs] at hm
        have hc : rest.takeWhile isIdChar = c := Option.some.inj hm
        intro hmem
        rw [← hc] at hmem
        have := List.mem_takeWhile_imp hmem
        revert this
        decide
    · simp at h

/-- A matching identifier occurs in the URL, and the id it yields is the extracted text
behind `withIdentifierPrefix`. -/
theorem tryGetIdFromUrl_of_matches (url identifier : JSString) (hne : identifier ≠ [])
    (h : identifierMatches url identifier) :
    identifier <:+: url ∧
    tryGetIdFromUrl url identifier =
      withIdentifierPrefix identifier (extractAfterIdentifier url identifier) := by
  have hin : identifier <:+: url := by
    by_contra hno
    exact h (tryGetIdFromUrl_of_noOccurrence url identifier hne hno)
  refine ⟨hin, ?_⟩
  unfold tryGetIdFromUrl
  simp [split_length_of_occurrence url identifier hne hin]

theorem option_of_autoGenerated (o : DataSourceOption) (h : o ∈ dataSourceOptions)
    (ht : o.dataSourceType = DataSourceType.YouTubeAutoGenerated) :
    o.identifiers = [js "list=AL", js "p=AL"] := by
  simp only [dataSourceOptions, List.mem_cons, List.mem_singleton, List.not_mem_nil,
    or_false] at h
  rcases h with h | h | h | h | h <;> subst h <;> first | rfl | simp at ht

theorem firstOccurrence_unique (sep pre rest pre2 rest2 s : JSString)
    (h : FirstOccurrence sep pre rest s) (h2 : FirstOccurrence sep pre2 rest2 s) :
    pre = pre2 ∧ rest = rest2 := by
  obtain ⟨hs, hmin⟩ := h
  obtain ⟨hs2, hmin2⟩ := h2
  have hlen : pre.length = pre2.length :=
    Nat.le_antisymm (hmin pre2 rest2 hs2) (hmin2 pre rest hs)
  have heq : pre ++ (sep ++ rest) = pre2 ++ (sep ++ rest2) := by
    rw [← List.append_assoc, ← List.append_assoc, ← hs, ← hs2]
  obtain ⟨hpre, htail⟩ := List.append_inj heq hlen
  exact ⟨hpre, List.append_cancel_left htail⟩

/-- C18. For every URL the classifier maps to AutoGenerated, the URL contains `list=AL`
or `p=AL`: the first of these two identifiers that matches (`list=AL` if it matches, `p=AL`
otherwise) has a first occurrence in the URL, followed by `rest`, and the id is `AL`
followed by the text extracted after it, which is `rest` cut at its first `&` when the
identifier does not occur in `rest`, and the part of `rest` before its next occurrence, cut
at its first `&`, when it does; so the id begins with `AL`.  An identifier matches when
`tryGetIdFromUrl` returns a non-empty string for it. -/
theorem C18_autoGenerated_id (url : JSString)
    (h : (parseUrlForDataSourceInformation url).dataSourceType =
      DataSourceType.YouTubeAutoGenerated) :
    ∃ tok pre rest, (tok = js "list=AL" ∨
        (tok = js "p=AL" ∧ ¬ identifierMatches url (js "list=AL"))) ∧
      identifierMatches url tok ∧
      FirstOccurrence tok pre rest url ∧
      (¬ tok <:+: rest →
        (parseUrlForDataSourceInformation url).dataSourceId =
          js "AL" ++ upToAmpersand rest) ∧
      (∀ mid r, FirstOccurrence tok mid r rest →
        (parseUrlForDataSourceInformation url).dataSourceId =
          js "AL" ++ upToAmpersand mid) ∧
      js "AL" <+: (parseUrlForDataSourceInformation url).dataSourceId := by
  by_cases hex : ∃ o ∈ dataSourceOptions, ∃ t ∈ o.identifiers, identifierMatches url t
  · obtain ⟨before, g, after, hopts, hg, hafter⟩ :=
      exists_last_of_exists (fun o : DataSourceOption =>
        ∃ t ∈ o.identifiers, identifierMatches url t) dataSourceOptions hex
    obtain ⟨pre, tok, post, hids, htok, hpre⟩ :=
      exists_first_of_exists (fun t => identifierMatches url t) g.identifiers hg
    have hparse := parse_of_lastGroup url before after g pre post tok hopts hids htok hpre
      (fun o ho t ht hm => hafter o ho ⟨t, ht, hm⟩)
    rw [hparse] at h ⊢
    have hgids := option_of_autoGenerated g (by rw [hopts]; simp) h
    rw [hgids] at hids
    have htokAL : tok = js "list=AL" ∨
        (tok = js "p=AL" ∧ ¬ identifierMatches url (js "list=AL")) := by
      cases pre with
      | nil =>
        simp only [List.nil_append, List.cons.injEq] at hids
        exact Or.inl hids.1.symm
      | cons x pre =>
        simp only [List.cons_append, List.cons.injEq] at hids
        obtain ⟨hx, hrest⟩ := hids
        cases pre with
        | nil =>
          simp only [List.nil_append, List.cons.injEq] at hrest
          refine Or.inr ⟨hrest.1.symm, ?_⟩
          rw [hx]
          exact hpre x (List.mem_cons_self _ _)
        | cons y pre =>
          simp only [List.cons_append, List.cons.injEq] at hrest
          exact absurd hrest.2 (by simp)
    have hne : tok ≠ [] := by
      rcases htokAL with rfl | ⟨rfl, _⟩ <;> decide
    have hin : tok <:+: url := by
      by_contra hno
      exact htok (tryGetIdFromUrl_of_noOccurrence url tok hne hno)
    obtain ⟨p, rest, hfirst⟩ := exists_firstOccurrence tok url hin
    have hsplit : split url tok = p :: split rest tok :=
      split_firstOccurrence tok p rest url hne hfirst
    have hextract : extractAfterIdentifier url tok =
        upToAmpersand ((split rest tok).getD 0 []) := by
      have hcut : extractAfterIdentifier url tok =
          upToAmpersand ((split url tok).getD 1 []) := by
        unfold extractAfterIdentifier
        exact cut_at_ampersand _
      rw [hcut, hsplit]
      rfl
    have hAL : tryGetIdFromUrl url tok =
        js "AL" ++ upToAmpersand ((split rest tok).getD 0 []) := by
      have hlen : 1 < (split url tok).length := by
        rw [hsplit]
        have := List.length_pos.2 (split_ne_nil rest tok hne)
        simp only [List.length_cons]
        omega
      unfold tryGetIdFromUrl
      simp only [gt_iff_lt, hlen, if_true, hextract]
      rcases htokAL with rfl | ⟨rfl, _⟩ <;> rfl
    refine ⟨tok, p, rest, htokAL, htok, hfirst, ?_, ?_, ?_⟩
    · intro hnot
      show tryGetIdFromUrl url tok = js "AL" ++ upToAmpersand rest
      rw [hAL, split_noOccurrence tok rest hne hnot]
      rfl
    · intro mid r hmid
      show tryGetIdFromUrl url tok = js "AL" ++ upToAmpersand mid
      rw [hAL, split_firstOccurrence tok mid r rest hne hmid]
      rfl
    · show js "AL" <+: tryGetIdFromUrl url tok
      rw [hAL]
      exact List.prefix_append _ _
  · have hnone : ∀ o ∈ dataSourceOptions, ∀ t ∈ o.identifiers,
        ¬ identifierMatches url t := fun o ho t ht hm => hex ⟨o, ho, t, ht, hm⟩
    rw [parse_of_noGroup url hnone] at h
    split at h <;> simp at h

/-- C18 at `https://www.youtube.com/watch?v=dQw4w9WgXcQ&list=ALabc&index=1`: the classifier
returns AutoGenerated, `list=AL` is followed by `abc&index=1`, and the id is `AL` followed
by `abc&index=1` cut at its `&`, which is `ALabc`, as the code evaluates it. -/
theorem C18_autoGenerated_id_witness :
    (parseUrlForDataSourceInformation
        (js "https://www.youtube.com/watch?v=dQw4w9WgXcQ&list=ALabc&index=1")).dataSourceType =
      DataSourceType.YouTubeAutoGenerated ∧
    (parseUrlForDataSourceInformation
        (js "https://www.youtube.com/watch?v=dQw4w9WgXcQ&list=ALabc&index=1")).dataSourceId =
      js "AL" ++ upToAmpersand (js "abc&index=1") ∧
    (parseUrlForDataSourceInformation
        (js "https://www.youtube.com/watch?v=dQw4w9WgXcQ&list=ALabc&index=1")).dataSourceId =
      js "ALabc" := by
  refine ⟨by decide, ?_, by decide⟩
  obtain ⟨tok, pre, rest, hsel, _, hfirst, hno, _, _⟩ :=
    C18_autoGenerated_id
      (js "https://www.youtube.com/watch?v=dQw4w9WgXcQ&list=ALabc&index=1") (by decide)
  rcases hsel with rfl | ⟨_, hnot⟩
  · have hknown : FirstOccurrence (js "list=AL")
        (js "https://www.youtube.com/watch?v=dQw4w9WgXcQ&") (js "abc&index=1")
        (js "https://www.youtube.com/watch?v=dQw4w9WgXcQ&list=ALabc&index=1") :=
      firstOccurrence_of_indexOfFrom _ _ _ _ (by decide) (by decide) (by decide)
    obtain ⟨_, hrest⟩ := firstOccurrence_unique _ _ _ _ _ _ hfirst hknown
    subst hrest
    exact hno (by decide)
  · exact absurd (by decide) hnot

/-- C19. For every URL, the id the classifier returns contains no `&`, whichever kind is
returned. -/
theorem C19_id_has_no_ampersand (url : JSString) :
    ampersand ∉ (parseUrlForDataSourceInformation url).dataSourceId := by
  by_cases h : ∃ o ∈ dataSourceOptions, ∃ t ∈ o.identifiers, identifierMatches url t
  · obtain ⟨before, g, after, hopts, hg, hafter⟩ :=
      exists_last_of_exists (fun o : DataSourceOption =>
        ∃ t ∈ o.identifiers, identifierMatches url t) dataSourceOptions h
    obtain ⟨pre, tok, post, hids, htok, hpre⟩ :=
      exists_first_of_exists (fun t => identifierMatches url t) g.identifiers hg
    rw [parse_of_lastGroup url before after g pre post tok hopts hids htok hpre
      (fun o ho t ht hm => hafter o ho ⟨t, ht, hm⟩)]
    exact ampersand_not_mem_tryGetIdFromUrl url tok
  · have hnone : ∀ o ∈ dataSourceOptions, ∀ t ∈ o.identifiers,
        ¬ identifierMatches url t := fun o ho t ht hm => h ⟨o, ho, t, ht, hm⟩
    rw [parse_of_noGroup url hnone]
    cases hv : parseYouTubeVideoIdFromUrl url with
    | none => simp [truthy]
    | some v =>
      have := ampersand_not_mem_videoId url v hv
      cases v with
      | nil => simp [truthy]
      | cons c cs => simpa [truthy] using this

end DataSource
